import Mathlib

/-!
Shallow embedding of the docker network control plane:
the network registry and endpoint coupling (src/unnamed/part_001, identical to
src/daemon/network.go) and the simplebridge network driver
(src/daemon/networkdriver/simplebridge/driver.go).

Go maps are embedded as association lists (a determinization of map iteration
order), machine integers as Nat, fallible calls as Except or an Option error,
and host side effects (netlink, iptables, proc files) as explicit state passing
over a HostState record. External collaborators whose code is not in the
source tree (ipallocator, pkg/iptables chain management, networkdriver
helpers, the Go standard library parsers) are modelled from the spec; each
such definition carries a doc comment saying so.
-/

/-- Association list lookup, embedding a Go map read `v, found := m[k]`. -/
def alookup {α : Type} : List (String × α) → String → Option α
  | [], _ => none
  | (k, v) :: rest, key => if k = key then some v else alookup rest key

/-- Association list insert-or-replace, embedding a Go map write `m[k] = v`. -/
def aupsert {α : Type} : List (String × α) → String → α → List (String × α)
  | [], k, v => [(k, v)]
  | (k0, v0) :: rest, k, v =>
    if k0 = k then (k, v) :: rest else (k0, v0) :: aupsert rest k v

/-- Association list delete, embedding Go `delete(m, k)`. -/
def adelete {α : Type} : List (String × α) → String → List (String × α)
  | [], _ => []
  | (k0, v0) :: rest, k =>
    if k0 = k then rest else (k0, v0) :: adelete rest k

/-- Go `map[string]string`, the shape of Labels and of Network.State. -/
abbrev StateMap := List (String × String)

/-- An IPv4 address as a natural number below 2^32 (net.IP restricted to v4). -/
abbrev IPv4 := Nat

/-- An IPv6 address, likewise modelled as a natural number. -/
abbrev IPv6 := Nat

/-- Byte `i` of an IPv4 address, big endian: byteOf ip 0 is the most
significant byte, matching the order of Go ip.To4(). -/
def byteOf (ip : IPv4) (i : Nat) : Nat := ip / 2 ^ (8 * (3 - i)) % 256

/-- Dotted quad rendering of an IPv4 address, embedding Go net.IP.String(). -/
def ipv4ToString (ip : IPv4) : String :=
  toString (byteOf ip 0) ++ "." ++ toString (byteOf ip 1) ++ "." ++
    toString (byteOf ip 2) ++ "." ++ toString (byteOf ip 3)

/-- An IPv4 network: base address (already masked) and prefix length,
embedding Go net.IPNet. -/
structure IPNet where
  base : IPv4
  maskBits : Nat
deriving DecidableEq, Repr

/-- Apply a prefix mask to an address (zero the host bits). -/
def maskApply (ip : IPv4) (maskBits : Nat) : IPv4 :=
  ip / 2 ^ (32 - maskBits) * 2 ^ (32 - maskBits)

/-- Whether an address lies inside a network. -/
def inSubnet (s : IPNet) (ip : IPv4) : Bool :=
  maskApply ip s.maskBits = s.base

/-- Rendering of an IPNet, embedding Go net.IPNet.String(). -/
def ipnetToString (s : IPNet) : String :=
  ipv4ToString s.base ++ "/" ++ toString s.maskBits

/-- A MAC address as its list of six bytes (Go net.HardwareAddr). -/
abbrev MAC := List Nat

/-- Whether the second list starts with the first (used by the splitter). -/
def leadsWith : List Char → List Char → Bool
  | [], _ => true
  | _ :: _, [] => false
  | s :: ss, c :: cs => s = c && leadsWith ss cs

/-- Fuel-driven worker of splitOnL; the fuel is the input length, so the
recursion is structural and the function evaluates inside the kernel. -/
def splitGo (sep : List Char) : Nat → List Char → List (List Char)
  | _, [] => [[]]
  | 0, l => [l]
  | fuel + 1, c :: rest =>
    if sep ≠ [] ∧ leadsWith sep (c :: rest) then
      [] :: splitGo sep fuel ((c :: rest).drop sep.length)
    else
      match splitGo sep fuel rest with
      | [] => [[c]]
      | g :: gs => (c :: g) :: gs

/-- Split a character list at every occurrence of a separator, matching Go
strings.Split (an empty input gives one empty field, a trailing separator a
trailing empty field). -/
def splitOnL (sep cs : List Char) : List (List Char) :=
  splitGo sep cs.length cs

/-- Decimal digit value of a character. -/
def decDigit? (c : Char) : Option Nat :=
  if '0' ≤ c ∧ c ≤ '9' then some (c.toNat - '0'.toNat) else none

/-- Decimal parse of a nonempty digit string. -/
def decNat? (cs : List Char) : Option Nat :=
  if cs.isEmpty ∨ cs.any (fun c => (decDigit? c).isNone) then none
  else some (cs.foldl (fun acc c => acc * 10 + (decDigit? c).getD 0) 0)

/-- One dotted-quad field: up to three decimal digits below 256. -/
def decByte? (cs : List Char) : Option Nat :=
  match decNat? cs with
  | some n => if n < 256 ∧ cs.length ≤ 3 then some n else none
  | none => none

/-- Modelled from the spec: Go net.ParseIP restricted to IPv4 dotted-quad
input (the only shape the driver feeds it); returns none on anything else,
matching ParseIP returning nil. The Go standard library source is external
to this repository. -/
def parseIP (s : String) : Option IPv4 :=
  match splitOnL ['.'] s.toList with
  | [a, b, c, d] =>
    match decByte? a, decByte? b, decByte? c, decByte? d with
    | some a', some b', some c', some d' =>
      some (a' * 2 ^ 24 + b' * 2 ^ 16 + c' * 2 ^ 8 + d')
    | _, _, _, _ => none
  | _ => none

/-- Modelled from the spec: Go net.ParseCIDR for IPv4, returning the parsed
address and the masked network, as ParseCIDR returns (ip, ipnet). -/
def parseCIDR (s : String) : Option (IPv4 × IPNet) :=
  match splitOnL ['/'] s.toList with
  | [ipPart, maskPart] =>
    match parseIP (String.mk ipPart), decNat? maskPart with
    | some ip, some m =>
      if m ≤ 32 then some (ip, ⟨maskApply ip m, m⟩) else none
    | _, _ => none
  | _ => none

/-- Hex digit value of a character, for the MAC parser. -/
def hexVal? (c : Char) : Option Nat :=
  if '0' ≤ c ∧ c ≤ '9' then some (c.toNat - '0'.toNat)
  else if 'a' ≤ c ∧ c ≤ 'f' then some (c.toNat - 'a'.toNat + 10)
  else if 'A' ≤ c ∧ c ≤ 'F' then some (c.toNat - 'A'.toNat + 10)
  else none

/-- Two-hex-digit byte parse for the MAC parser. -/
def hexByte? : List Char → Option Nat
  | [h, l] =>
    match hexVal? h, hexVal? l with
    | some hv, some lv => some (hv * 16 + lv)
    | _, _ => none
  | _ => none

/-- Modelled from the spec: Go net.ParseMAC restricted to the colon form
aa:bb:cc:dd:ee:ff; any other input is an error. -/
def parseMAC (s : String) : Except String MAC :=
  let parts := (splitOnL [':'] s.toList).map hexByte?
  if parts.length = 6 ∧ parts.all (·.isSome) then
    .ok (parts.map (·.getD 0))
  else
    .error ("address " ++ s ++ ": invalid MAC address")

/-- Two-digit lowercase hex rendering of a byte. -/
def hexOfByte (n : Nat) : String :=
  let dig := fun (d : Nat) =>
    String.singleton (if d < 10 then Char.ofNat ('0'.toNat + d)
                      else Char.ofNat ('a'.toNat + d - 10))
  dig (n / 16 % 16) ++ dig (n % 16)

/-- Rendering of a MAC address, embedding Go net.HardwareAddr.String(). -/
def macToString (m : MAC) : String :=
  String.intercalate ":" (m.map hexOfByte)

/-! ## Host state: interfaces, iptables, proc settings -/

/-- A host network interface as seen through networkdriver.GetIfaceAddr:
an optional IPv4 address (GetIfaceAddr fails when there is none), the list
of IPv6 addresses, plus the administrative bits the driver touches. -/
structure Iface where
  ipv4 : Option IPv4 := none
  ipv6s : List IPv6 := []
  up : Bool := false
  ipv6Enabled : Bool := false
deriving DecidableEq, Repr

/-- The iptables table a rule lives in (pkg/iptables Table). -/
inductive IptTable where
  | nat
  | filter
deriving DecidableEq, Repr

/-- One installed iptables rule: table, chain and the literal argument list
the driver passes to iptables.Raw / iptables.Exists. -/
structure IptRule where
  table : IptTable
  chain : String
  args : List String
deriving DecidableEq, Repr

/-- The host networking state the simplebridge driver reads and mutates. -/
structure HostState where
  ifaces : List (String × Iface) := []
  rules : List IptRule := []
  natChains : List String := []
  filterChains : List String := []
  ipv4Forwarding : Bool := false
  ipv6DefaultForwarding : Bool := false
  ipv6AllForwarding : Bool := false
  routes : List (String × String) := []
  nameservers : List IPNet := []
  routes4 : List IPNet := []
deriving DecidableEq, Repr

/-- Modelled from the spec: networkdriver.GetIfaceAddr (code of this
repository not under src/). It reports the interface IPv4 address and the
IPv6 address list, and fails (none) when the interface is absent or the
host reports no IPv4 interface address. -/
def getIfaceAddr (h : HostState) (name : String) : Option (IPv4 × List IPv6) :=
  match alookup h.ifaces name with
  | none => none
  | some ifc =>
    match ifc.ipv4 with
    | none => none
    | some a => some (a, ifc.ipv6s)

/-- iptables.Exists: whether the exact rule is installed. -/
def iptExists (h : HostState) (table : IptTable) (chain : String)
    (args : List String) : Bool :=
  h.rules.contains ⟨table, chain, args⟩

/-- Insert a rule at the head of a chain (iptables -I). -/
def iptInsert (h : HostState) (r : IptRule) : HostState :=
  { h with rules := r :: h.rules }

/-- Delete the first occurrence of a rule (iptables -D); deleting an absent
rule leaves the host unchanged (the driver ignores the result of those
calls). -/
def iptDelete (h : HostState) (r : IptRule) : HostState :=
  { h with rules := h.rules.erase r }

/-- Modelled from the spec: iptables.RemoveExistingChain for the DOCKER nat
chain (pkg/iptables is code of this repository not under src/); removing an
absent chain succeeds, so chain state never accumulates. -/
def removeExistingChain (h : HostState) (name : String) : HostState :=
  { h with natChains := h.natChains.erase name }

/-- Modelled from the spec: iptables.NewChain (pkg/iptables is code of this
repository not under src/); the management chain is created fresh, and
creating a chain that already exists succeeds, keeping repeated Setup
convergent. -/
def newChain (h : HostState) (table : IptTable) (name : String) : HostState :=
  match table with
  | .nat =>
    if h.natChains.contains name then h
    else { h with natChains := name :: h.natChains }
  | .filter =>
    if h.filterChains.contains name then h
    else { h with filterChains := name :: h.filterChains }

/-! ## The address allocator (external collaborator) -/

/-- Modelled from the spec: the state of the ipallocator collaborator (code
of this repository not under src/): the reserved sub-range registered per
parent subnet, and the set of allocated addresses keyed by subnet. -/
structure AllocState where
  registrations : List (IPNet × IPNet) := []
  allocated : List (IPNet × IPv4) := []
deriving DecidableEq, Repr

/-- Modelled from the spec: RegisterSubnet(parentSubnet, reservedSubnet)
records that allocation on the parent draws from the reserved sub-range. -/
def registerSubnet (a : AllocState) (parent reserved : IPNet) :
    Except String Unit × AllocState :=
  (.ok (),
   { a with registrations :=
      (parent, reserved) :: (a.registrations.filter (fun p => p.1 ≠ parent)) })

/-- The range requests on a subnet draw from: the registered reserved
sub-range when present, else the whole subnet. -/
def drawRange (a : AllocState) (subnet : IPNet) : IPNet :=
  match a.registrations.find? (fun p => p.1 = subnet) with
  | some p => p.2
  | none => subnet

/-- First unallocated address of a range (ascending), for requests that name
no specific address. -/
def firstFree (a : AllocState) (subnet range : IPNet) : Option IPv4 :=
  ((List.range (2 ^ (32 - range.maskBits))).map (range.base + ·)).find?
    (fun ip => ¬ a.allocated.contains (subnet, ip))

/-- Modelled from the spec: RequestIP(subnet, requestedIP or empty) returns
an unused address, honoring a specific request when it is inside the subnet
and free. -/
def requestIP (a : AllocState) (subnet : IPNet) (req : Option IPv4) :
    Except String IPv4 × AllocState :=
  match req with
  | some ip =>
    if ¬ inSubnet subnet ip then
      (.error ("ip " ++ ipv4ToString ip ++ " is not in the given subnet"), a)
    else if a.allocated.contains (subnet, ip) then
      (.error ("requested ip " ++ ipv4ToString ip ++ " is already allocated"), a)
    else
      (.ok ip, { a with allocated := (subnet, ip) :: a.allocated })
  | none =>
    match firstFree a subnet (drawRange a subnet) with
    | some ip => (.ok ip, { a with allocated := (subnet, ip) :: a.allocated })
    | none => (.error "no available ip addresses on network", a)

/-- Modelled from the spec: ReleaseIP(subnet, IP) returns an address to the
pool, failing when the address is not currently allocated there. -/
def releaseIP (a : AllocState) (subnet : IPNet) (ip : IPv4) :
    Except String Unit × AllocState :=
  if a.allocated.contains (subnet, ip) then
    (.ok (), { a with allocated := a.allocated.erase (subnet, ip) })
  else
    (.error ("ip " ++ ipv4ToString ip ++ " is not allocated"), a)

/-- Hex group of one to four digits, for the IPv6 parser. -/
def hex16? (cs : List Char) : Option Nat :=
  if cs.length = 0 ∨ cs.length > 4 ∨ cs.any (fun c => (hexVal? c).isNone) then
    none
  else
    some (cs.foldl (fun acc c => acc * 16 + (hexVal? c).getD 0) 0)

/-- Combine left and right group lists around a :: gap into a 128-bit value. -/
def ipv6OfGroups (l r : List Nat) : IPv6 :=
  let groups := l ++ List.replicate (8 - l.length - r.length) 0 ++ r
  groups.foldl (fun acc g => acc * 2 ^ 16 + g) 0

/-- Modelled from the spec: Go net.ParseIP for IPv6 colon-hex input with an
optional double-colon gap (the shapes the driver feeds it). -/
def parseIPv6 (s : String) : Option IPv6 :=
  let parseSide := fun (side : List Char) =>
    if side.isEmpty then some ([] : List Nat)
    else
      let parts := (splitOnL [':'] side).map hex16?
      if parts.all (·.isSome) then some (parts.map (·.getD 0)) else none
  match splitOnL [':', ':'] s.toList with
  | [one] =>
    match parseSide one with
    | some gs => if gs.length = 8 then some (ipv6OfGroups gs []) else none
    | none => none
  | [l, r] =>
    match parseSide l, parseSide r with
    | some gl, some gr =>
      if gl.length + gr.length ≤ 7 then some (ipv6OfGroups gl gr) else none
    | _, _ => none
  | _ => none

/-- Modelled from the spec: Go net.ParseCIDR for IPv6 input; the network part
reuses the IPNet record with a 128-bit base. -/
def parseCIDR6 (s : String) : Option (IPv6 × IPNet) :=
  match splitOnL ['/'] s.toList with
  | [ipPart, maskPart] =>
    match parseIPv6 (String.mk ipPart), decNat? maskPart with
    | some ip, some m =>
      if m ≤ 128 then
        some (ip, ⟨ip / 2 ^ (128 - m) * 2 ^ (128 - m), m⟩)
      else none
    | _, _ => none
  | _ => none

/-! ## The simplebridge driver (src/daemon/networkdriver/simplebridge/driver.go) -/

/-- The driver-private config map (type config map[string]string). -/
abbrev config := List (String × String)

/-- config.getString: the value when the key is present, else the empty
string (driver.go lines 106 to 112). -/
def getString (c : config) (name : String) : String :=
  match alookup c name with
  | some value => value
  | none => ""

/-- Modelled from the spec: Go strconv.ParseBool; some on the twelve accepted
literals, none (an error) otherwise. On error ParseBool also returns the zero
value false, which getBool reads. -/
def parseBool (s : String) : Option Bool :=
  if s = "1" ∨ s = "t" ∨ s = "T" ∨ s = "TRUE" ∨ s = "true" ∨ s = "True" then
    some true
  else if s = "0" ∨ s = "f" ∨ s = "F" ∨ s = "FALSE" ∨ s = "false" ∨ s = "False" then
    some false
  else
    none

/-- config.getBool, exactly as written in driver.go lines 114 to 121: the
parsed value bVal is returned when the key is found AND the parse FAILED
(in which case ParseBool returned the zero value false), and the default is
returned otherwise, including when the value parsed successfully. -/
def getBool (c : config) (name : String) (fedault : Bool) : Bool :=
  let value := getString c name
  let found := (alookup c name).isSome
  let bVal := (parseBool value).getD false
  let perr := (parseBool value).isNone
  if found ∧ perr then bVal else fedault

/-- The runtime per-endpoint record (driver.go networkInterface); the IPv6
and port-mapping fields are never written by the live code. -/
structure networkInterface where
  IP : IPv4
deriving DecidableEq, Repr

/-- execdriver.NetworkInterface, the descriptor Allocate returns. -/
structure NetworkInterface where
  Gateway : String
  IPAddress : String
  IPPrefixLen : Nat
  MacAddress : String
  Bridge : String
deriving DecidableEq, Repr

/-- The simplebridge Network (driver.go lines 82 to 102). The ipAllocator
and currentInterfaces fields are pointer-backed in Go, so operations return
the updated record. IPv6 fields are zero-valued when IPv6 is disabled. -/
structure Simplebridge.Network where
  bridgeIface : String
  bridgeIPv4Addr : IPv4
  bridgeIPv4Network : IPNet
  fixedIPv4Subnet : Option IPNet := none
  enableIPv6 : Bool := false
  bridgeIPv6Addr : IPv6 := 0
  bridgeIPv6Network : Option IPNet := none
  fixedIPv6Subnet : Option IPNet := none
  enableIPTables : Bool := false
  enableICC : Bool := true
  enableIPMasq : Bool := false
  enableIPForward : Bool := false
  enableDefaultGateway : Bool := false
  currentInterfaces : List (String × networkInterface) := []
  ipAllocator : AllocState := {}
deriving DecidableEq, Repr

/-- The candidate private ranges scanned by findFreeIp (driver.go var addrs). -/
def addrs : List String :=
  ["172.17.42.1/16", "10.0.42.1/16", "10.1.42.1/16", "10.42.42.1/16",
   "172.16.42.1/24", "172.16.43.1/24", "172.16.44.1/24", "10.0.42.1/24",
   "10.0.43.1/24", "192.168.42.1/24", "192.168.43.1/24", "192.168.44.1/24"]

/-- Whether two networks overlap (networkdriver.NetworkOverlaps, code of this
repository not under src/, modelled from the spec: a range conflicts when it
overlaps the other range). -/
def networksOverlap (a b : IPNet) : Bool :=
  inSubnet a b.base || inSubnet b a.base

/-- Modelled from the spec: networkdriver.CheckNameserverOverlaps succeeds
(true) when the network overlaps no configured nameserver address. -/
def checkNameserverOverlaps (ns : List IPNet) (net : IPNet) : Bool :=
  ns.all (fun s => ¬ networksOverlap s net)

/-- Modelled from the spec: networkdriver.CheckRouteOverlaps succeeds (true)
when the network overlaps no existing host route. -/
def checkRouteOverlaps (h : HostState) (net : IPNet) : Bool :=
  h.routes4.all (fun s => ¬ networksOverlap s net)

/-- The scan loop of findFreeIp (driver.go lines 208 to 232) over the
candidate list: a candidate that fails to parse aborts, one that clears both
overlap checks is returned, and an exhausted list is an error. -/
def findFreeIpAux (h : HostState) : List String → Except String (IPv4 × IPNet)
  | [] => .error "Could not find a free IP address range."
  | cidr :: rest =>
    match parseCIDR cidr with
    | none => .error ("invalid CIDR address: " ++ cidr)
    | some (ip, net) =>
      if checkNameserverOverlaps h.nameservers net ∧ checkRouteOverlaps h net then
        .ok (ip, net)
      else
        findFreeIpAux h rest

/-- findFreeIp (driver.go lines 208 to 232); the nameserver list comes from
the host resolv.conf model. -/
def findFreeIp (h : HostState) : Except String (IPv4 × IPNet) :=
  findFreeIpAux h addrs

/-- The probe loop of findFreeBridgeName: from index i with the given fuel,
return the first name the host reports no interface address for. -/
def findFromBridgeName (h : HostState) : Nat → Nat → Except String String
  | _, 0 => .error "Cannot find free bridge name"
  | i, fuel + 1 =>
    let name := "docker" ++ toString i
    match getIfaceAddr h name with
    | none => .ok name
    | some _ => findFromBridgeName h (i + 1) fuel

/-- findFreeBridgeName (driver.go lines 234 to 246): probe docker0 through
docker9 in ascending order. -/
def findFreeBridgeName (h : HostState) : Except String String :=
  findFromBridgeName h 0 10

/-- generateMacAddr (driver.go lines 527 to 546): a six byte MAC whose first
byte is 0x02 (unicast, locally administered), second byte 0x42, and last
four bytes the four bytes of the IPv4 address. -/
def generateMacAddr (ip : IPv4) : MAC :=
  [0x02, 0x42, byteOf ip 0, byteOf ip 1, byteOf ip 2, byteOf ip 3]

/-- NewNetwork (driver.go lines 123 to 206): resolve the configuration into
a Network record, probing the host for a free bridge name or address range
when the configuration leaves them out. -/
def Simplebridge.NewNetwork (conf : config) (h : HostState) :
    Except String Simplebridge.Network :=
  let bridgeIface := getString conf "BridgeIface"
  let bridgeIP := getString conf "BridgeIP"
  let fixedCIDR := getString conf "FixedCIDR"
  let enableIPv6 := getBool conf "EnableIPv6" false
  let bridgeIPv6 := "fe80::1/64"
  let fixedCIDRv6 := getString conf "FixedCIDRv6"
  let enableIPTables := getBool conf "EnableIptables" false
  let enableICC := getBool conf "InterContainerCommunication" true
  let enableIPMasq := getBool conf "EnableIpMasq" false
  let enableIPForward := getBool conf "EnableIpForward" false
  let enableDefaultGateway := getBool conf "EnableDefaultGateway" false
  let ifaceRes : Except String String :=
    if bridgeIface = "" then findFreeBridgeName h else .ok bridgeIface
  match ifaceRes with
  | .error e => .error e
  | .ok ifname =>
    let v4Res : Except String (IPv4 × IPNet) :=
      if bridgeIP ≠ "" then
        match parseCIDR bridgeIP with
        | some p => .ok p
        | none => .error ("invalid CIDR address: " ++ bridgeIP)
      else findFreeIp h
    match v4Res with
    | .error e => .error e
    | .ok (ipv4Addr, ipv4Net) =>
      let fixedRes : Except String (Option IPNet) :=
        if fixedCIDR ≠ "" then
          match parseCIDR fixedCIDR with
          | some (_, subnet) => .ok (some subnet)
          | none => .error ("invalid CIDR address: " ++ fixedCIDR)
        else .ok none
      match fixedRes with
      | .error e => .error e
      | .ok fixedV4 =>
        let base : Simplebridge.Network :=
          { bridgeIface := ifname
            bridgeIPv4Addr := ipv4Addr
            bridgeIPv4Network := ipv4Net
            fixedIPv4Subnet := fixedV4
            enableIPTables := enableIPTables
            enableICC := enableICC
            enableIPMasq := enableIPMasq
            enableIPForward := enableIPForward
            enableDefaultGateway := enableDefaultGateway }
        if enableIPv6 then
          match parseCIDR6 bridgeIPv6 with
          | none => .error ("invalid CIDR address: " ++ bridgeIPv6)
          | some (v6Addr, v6Net) =>
            if fixedCIDRv6 ≠ "" then
              match parseCIDR6 fixedCIDRv6 with
              | some (_, subnet) =>
                .ok { base with enableIPv6 := true, bridgeIPv6Addr := v6Addr,
                                bridgeIPv6Network := some v6Net,
                                fixedIPv6Subnet := some subnet }
              | none => .error ("invalid CIDR address: " ++ fixedCIDRv6)
            else
              .ok { base with enableIPv6 := true, bridgeIPv6Addr := v6Addr,
                              bridgeIPv6Network := some v6Net }
        else .ok base

/-! ### iptables plumbing used by setupIPTables -/

/-- Apply an -I or -D invocation within one table. -/
def applyRaw (h : HostState) (table : IptTable) : List String → HostState
  | "-I" :: chain :: rest => iptInsert h ⟨table, chain, rest⟩
  | "-D" :: chain :: rest => iptDelete h ⟨table, chain, rest⟩
  | _ => h

/-- iptables.Raw: run an iptables invocation against the host. The host is
assumed to accept every well formed invocation the driver issues, so the
returned output is empty and the returned error is none; deleting an absent
rule is a no-op (the driver ignores those results). -/
def iptRaw (h : HostState) (args : List String) : HostState × String × Option String :=
  match args with
  | "-t" :: "nat" :: rest => (applyRaw h .nat rest, "", none)
  | _ => (applyRaw h .filter args, "", none)

/-- Chain two driver steps that thread host state and may fail. -/
def seqStep (r : Option String × HostState)
    (f : HostState → Option String × HostState) : Option String × HostState :=
  match r with
  | (some e, h) => (some e, h)
  | (none, h) => f h

/-- The masquerade arguments of setupIPTables (driver.go line 394). -/
def Simplebridge.Network.natArgs (n : Simplebridge.Network) : List String :=
  ["-s", ipv4ToString n.bridgeIPv4Addr, "!", "-o", n.bridgeIface, "-j", "MASQUERADE"]

/-- The inter-container accept arguments (driver.go lines 406 to 410). -/
def Simplebridge.Network.acceptArgs (n : Simplebridge.Network) : List String :=
  ["-i", n.bridgeIface, "-o", n.bridgeIface, "-j", "ACCEPT"]

/-- The inter-container drop arguments (driver.go lines 406 to 410). -/
def Simplebridge.Network.dropArgs (n : Simplebridge.Network) : List String :=
  ["-i", n.bridgeIface, "-o", n.bridgeIface, "-j", "DROP"]

/-- The outgoing passthrough arguments (driver.go line 437). -/
def Simplebridge.Network.outgoingArgs (n : Simplebridge.Network) : List String :=
  ["-i", n.bridgeIface, "!", "-o", n.bridgeIface, "-j", "ACCEPT"]

/-- The established return traffic arguments (driver.go line 447). -/
def Simplebridge.Network.existingArgs (n : Simplebridge.Network) : List String :=
  ["-o", n.bridgeIface, "-m", "conntrack", "--ctstate", "RELATED,ESTABLISHED",
   "-j", "ACCEPT"]

/-- The masquerade rule group of setupIPTables (driver.go lines 393 to 404):
insert into nat POSTROUTING unless the rule exists. -/
def Simplebridge.Network.masqStep (n : Simplebridge.Network) (h : HostState) :
    Option String × HostState :=
  if n.enableIPMasq then
    if ¬ iptExists h .nat "POSTROUTING" n.natArgs then
      let (h', output, err) := iptRaw h (["-t", "nat", "-I", "POSTROUTING"] ++ n.natArgs)
      match err with
      | some e => (some ("Unable to enable network bridge NAT: " ++ e), h')
      | none =>
        if output ≠ "" then (some ("iptables failed: POSTROUTING: " ++ output), h')
        else (none, h')
    else (none, h)
  else (none, h)

/-- The inter-container communication rule group (driver.go lines 412 to
434): unconditionally delete the stale opposite rule, then insert the rule
matching the flag unless it exists. -/
def Simplebridge.Network.iccStep (n : Simplebridge.Network) (h : HostState) :
    Option String × HostState :=
  if ¬ n.enableICC then
    let (h, _, _) := iptRaw h (["-D", "FORWARD"] ++ n.acceptArgs)
    if ¬ iptExists h .filter "FORWARD" n.dropArgs then
      let (h', output, err) := iptRaw h (["-I", "FORWARD"] ++ n.dropArgs)
      match err with
      | some e => (some ("Unable to prevent intercontainer communication: " ++ e), h')
      | none =>
        if output ≠ "" then
          (some ("Error disabling intercontainer communication: " ++ output), h')
        else (none, h')
    else (none, h)
  else
    let (h, _, _) := iptRaw h (["-D", "FORWARD"] ++ n.dropArgs)
    if ¬ iptExists h .filter "FORWARD" n.acceptArgs then
      let (h', output, err) := iptRaw h (["-I", "FORWARD"] ++ n.acceptArgs)
      match err with
      | some e => (some ("Unable to allow intercontainer communication: " ++ e), h')
      | none =>
        if output ≠ "" then
          (some ("Error enabling intercontainer communication: " ++ output), h')
        else (none, h')
    else (none, h)

/-- The outgoing passthrough rule group (driver.go lines 436 to 444). -/
def Simplebridge.Network.outgoingStep (n : Simplebridge.Network) (h : HostState) :
    Option String × HostState :=
  if ¬ iptExists h .filter "FORWARD" n.outgoingArgs then
    let (h', output, err) := iptRaw h (["-I", "FORWARD"] ++ n.outgoingArgs)
    match err with
    | some e => (some ("Unable to allow outgoing packets: " ++ e), h')
    | none =>
      if output ≠ "" then (some ("iptables failed: FORWARD outgoing: " ++ output), h')
      else (none, h')
  else (none, h)

/-- The established return traffic rule group (driver.go lines 446 to 455). -/
def Simplebridge.Network.existingStep (n : Simplebridge.Network) (h : HostState) :
    Option String × HostState :=
  if ¬ iptExists h .filter "FORWARD" n.existingArgs then
    let (h', output, err) := iptRaw h (["-I", "FORWARD"] ++ n.existingArgs)
    match err with
    | some e => (some ("Unable to allow incoming packets: " ++ e), h')
    | none =>
      if output ≠ "" then (some ("iptables failed: FORWARD incoming: " ++ output), h')
      else (none, h')
  else (none, h)

/-- setupIPTables (driver.go lines 390 to 457): the four rule groups in
order. -/
def Simplebridge.Network.setupIPTables (n : Simplebridge.Network) (h : HostState) :
    Option String × HostState :=
  seqStep (seqStep (seqStep (n.masqStep h) n.iccStep) n.outgoingStep) n.existingStep

/-- Update one host interface in place, leaving the rest of the host alone. -/
def modifyIface (h : HostState) (name : String) (f : Iface → Iface) : HostState :=
  match alookup h.ifaces name with
  | some ifc => { h with ifaces := aupsert h.ifaces name (f ifc) }
  | none => h

/-- createBridgeIface (driver.go lines 514 to 521): create the bridge link;
when it already exists the caller ignores the exists error, so the model
leaves an existing interface untouched. The MAC assignment depends only on
the kernel version and is invisible to GetIfaceAddr, so it is not tracked. -/
def createBridgeIface (h : HostState) (name : String) : HostState :=
  match alookup h.ifaces name with
  | some _ => h
  | none => { h with ifaces := aupsert h.ifaces name {} }

/-- setupIPv6Bridge (driver.go lines 495 to 512): enable IPv6 on the bridge
through the proc file and add the bridge IPv6 address. -/
def Simplebridge.Network.setupIPv6Bridge (n : Simplebridge.Network)
    (h : HostState) : HostState :=
  modifyIface h n.bridgeIface
    (fun ifc => { ifc with ipv6Enabled := true,
                           ipv6s := ifc.ipv6s ++ [n.bridgeIPv6Addr] })

/-- configureBridge (driver.go lines 464 to 493): create the bridge if
missing, associate the configured IPv4 address, optionally run the IPv6
setup, and bring the link up. The host netlink primitives are assumed to
accept these well formed requests. -/
def Simplebridge.Network.configureBridge (n : Simplebridge.Network)
    (h : HostState) : HostState :=
  let h := createBridgeIface h n.bridgeIface
  let h := modifyIface h n.bridgeIface
    (fun ifc => { ifc with ipv4 := some n.bridgeIPv4Addr })
  let h := if n.enableIPv6 then n.setupIPv6Bridge h else h
  modifyIface h n.bridgeIface (fun ifc => { ifc with up := true })

/-- The tail of Setup after the address validations (driver.go lines 326 to
387): firewall rules, forwarding switches, the DOCKER chain cycle, the
allocator registrations and the reservation of the bridge address. -/
def Simplebridge.Network.setupTail (n : Simplebridge.Network) (h : HostState)
    (al : AllocState) : Option String × HostState × AllocState :=
  let r1 : Option String × HostState :=
    if n.enableIPTables then n.setupIPTables h else (none, h)
  match r1 with
  | (some e, h) => (some e, h, al)
  | (none, h) =>
    let h := if n.enableIPForward then
        let h := { h with ipv4Forwarding := true }
        if n.fixedIPv6Subnet.isSome then
          { h with ipv6DefaultForwarding := true, ipv6AllForwarding := true }
        else h
      else h
    let h := removeExistingChain h "DOCKER"
    let h := if n.enableIPTables then
        newChain (newChain h .nat "DOCKER") .filter "DOCKER"
      else h
    let r2 : Option String × AllocState :=
      match n.fixedIPv4Subnet with
      | some sub =>
        match registerSubnet al n.bridgeIPv4Network sub with
        | (.ok _, al) => (none, al)
        | (.error e, al) => (some e, al)
      | none => (none, al)
    match r2 with
    | (some e, al) => (some e, h, al)
    | (none, al) =>
      let r3 : Option String × AllocState :=
        match n.fixedIPv6Subnet with
        | some sub =>
          match registerSubnet al sub sub with
          | (.ok _, al) => (none, al)
          | (.error e, al) => (some e, al)
        | none => (none, al)
      match r3 with
      | (some e, al) => (some e, h, al)
      | (none, al) =>
        let (_, al) := requestIP al n.bridgeIPv4Network (some n.bridgeIPv4Network.base)
        (none, h, al)

/-- The IPv6 block of Setup (driver.go lines 288 to 324): when IPv6 is
enabled and the bridge has no IPv6 address yet, run the IPv6 bridge setup,
then re-read and require the configured IPv6 address to be present. -/
def Simplebridge.Network.setupIPv6Check (n : Simplebridge.Network)
    (h : HostState) (al : AllocState) : Option String × HostState × AllocState :=
  if n.enableIPv6 then
    match getIfaceAddr h n.bridgeIface with
    | none => (some ("no IPv4 addresses on interface " ++ n.bridgeIface), h, al)
    | some (_, addrsv6) =>
      let h := if addrsv6.isEmpty then n.setupIPv6Bridge h else h
      match getIfaceAddr h n.bridgeIface with
      | none => (some ("no IPv4 addresses on interface " ++ n.bridgeIface), h, al)
      | some (_, addrsv6) =>
        if addrsv6.contains n.bridgeIPv6Addr then n.setupTail h al
        else
          (some ("Bridge IPv6 does not match existing bridge configuration " ++
            toString n.bridgeIPv6Addr), h, al)
  else n.setupTail h al

/-- The IPv4 validation of Setup (driver.go lines 275 to 286): the live
bridge address must equal the configured one; a mismatch is fatal and
nothing further runs. -/
def Simplebridge.Network.setupValidate (n : Simplebridge.Network)
    (h : HostState) (al : AllocState) : Option String × HostState × AllocState :=
  match getIfaceAddr h n.bridgeIface with
  | none => (some ("no IPv4 addresses on interface " ++ n.bridgeIface), h, al)
  | some (addrv4, _) =>
    if addrv4 ≠ n.bridgeIPv4Addr then
      (some ("Bridge ip (" ++ ipv4ToString addrv4 ++
        ") does not match existing bridge configuration " ++
        ipv4ToString n.bridgeIPv4Addr), h, al)
    else n.setupIPv6Check h al

/-- Setup (driver.go lines 248 to 388): create the bridge when the host
reports no interface address for it (then add the optional IPv6 route),
validate addresses, and run the firewall and allocator tail. The allocator
is the value of n.ipAllocator; the updated allocator is returned alongside
the host. -/
def Simplebridge.Network.Setup (n : Simplebridge.Network) (h : HostState) :
    Option String × HostState × AllocState :=
  match getIfaceAddr h n.bridgeIface with
  | some _ => n.setupValidate h n.ipAllocator
  | none =>
    let h := n.configureBridge h
    match getIfaceAddr h n.bridgeIface with
    | none =>
      (some ("no IPv4 addresses on interface " ++ n.bridgeIface), h, n.ipAllocator)
    | some _ =>
      let h := match n.fixedIPv6Subnet with
        | some sub => { h with routes := (ipnetToString sub, n.bridgeIface) :: h.routes }
        | none => h
      n.setupValidate h n.ipAllocator

/-- Allocate (driver.go lines 561 to 647): request an address from the
allocator (honoring RequestedIP), derive the MAC from the allocated address
unless RequestedMac is supplied, compute the gateway only when default
gateway announcement is on, record the runtime allocation under the
endpoint id, and return the interface descriptor. -/
def Simplebridge.Network.Allocate (n : Simplebridge.Network) (id : String)
    (conf : config) : Except String NetworkInterface × Simplebridge.Network :=
  let requestedIP := parseIP (getString conf "RequestedIP")
  let requestedMAC := getString conf "RequestedMac"
  match requestIP n.ipAllocator n.bridgeIPv4Network requestedIP with
  | (.error e, al) => (.error e, { n with ipAllocator := al })
  | (.ok ip, al) =>
    let macRes : Except String MAC :=
      if requestedMAC = "" then .ok (generateMacAddr ip)
      else parseMAC requestedMAC
    match macRes with
    | .error e => (.error e, { n with ipAllocator := al })
    | .ok mac =>
      let gateway := if n.enableDefaultGateway then ipv4ToString n.bridgeIPv4Addr else ""
      let n' := { n with ipAllocator := al,
                         currentInterfaces :=
                           aupsert n.currentInterfaces id ⟨ip⟩ }
      (.ok { Gateway := gateway
             IPAddress := ipv4ToString ip
             IPPrefixLen := n.bridgeIPv4Network.maskBits
             MacAddress := macToString mac
             Bridge := n.bridgeIface }, n')

/-- Release (driver.go lines 650 to 671): look up the runtime allocation,
fail when it is absent, release the IPv4 address back to the allocator
(logging, not failing, when the release itself errors) and return success.
The runtime table entry itself is not deleted by this code. -/
def Simplebridge.Network.Release (n : Simplebridge.Network) (id : String) :
    Except String Unit × Simplebridge.Network :=
  match alookup n.currentInterfaces id with
  | none => (.error ("No network information to release for " ++ id), n)
  | some containerInterface =>
    let (_, al) := releaseIP n.ipAllocator n.bridgeIPv4Network containerInterface.IP
    (.ok (), { n with ipAllocator := al })

/-! ## The network registry and endpoint coupling (src/unnamed/part_001) -/

/-- The registry Network record (part_001 lines 26 to 32). -/
structure Daemon.Network where
  ID : String
  Name : String
  Driver : String
  Labels : StateMap := []
  State : StateMap := []
deriving DecidableEq, Repr

/-- The Endpoint record (part_001 lines 34 to 38). -/
structure Daemon.Endpoint where
  ID : String
  Network : String
  Labels : StateMap := []
deriving DecidableEq, Repr

/-- Modelled from the spec: the container as this subsystem sees it (the
container runtime is an external collaborator): a running-state flag and
the ordered endpoint list the registry owns jointly. -/
structure Container where
  running : Bool := false
  Endpoints : List Daemon.Endpoint := []
deriving DecidableEq, Repr

/-- A record of one driver invocation issued by the registry layer; the
trace makes the claim that an operation does or does not issue a driver
call stateable. -/
inductive Event where
  | setupCall (driver : String) (net : Daemon.Network)
  | destroyCall (driver : String) (netId : String)
  | plugCall (driver netId epId : String)
  | unplugCall (driver netId epId : String)
deriving DecidableEq, Repr

/-- The Driver interface (part_001 lines 40 to 46): each method runs against
the host and may fail; Setup returns the possibly updated record since Go
passes the Network by pointer. -/
structure Daemon.Driver where
  setup : Daemon.Network → HostState → Except String Daemon.Network × HostState
  destroy : Daemon.Network → HostState → Except String Unit × HostState
  plug : Daemon.Network → Daemon.Endpoint → HostState →
    Except String NetworkInterface × HostState
  unplug : Daemon.Network → Daemon.Endpoint → HostState →
    Except String Unit × HostState

/-- The daemon state the registry operations thread: the in-memory network
index keyed by ID, the persisted records (one file per network ID), the
containers, the host, a fresh-ID counter standing in for the random ID
generator, the driver-call trace, and whether persisting can succeed. -/
structure DaemonState where
  networks : List (String × Daemon.Network) := []
  persisted : List (String × Daemon.Network) := []
  containers : List (String × Container) := []
  host : HostState := {}
  fresh : Nat := 0
  events : List Event := []
  saveOk : Bool := true
deriving DecidableEq, Repr

/-- Modelled from the spec: stringid.GenerateRandomID (code of this
repository not under src/), determinized by the fresh counter. -/
def genID (fresh : Nat) : String := "id" ++ toString fresh

/-- NetworkRegistry.ExistsWithName (part_001 lines 227 to 234). -/
def existsWithName (nets : List (String × Daemon.Network)) (name : String) : Bool :=
  nets.any (fun p => p.2.Name = name)

/-- NetworkRegistry.Get (part_001 lines 254 to 267): exact ID lookup first,
then the first network carrying the name. -/
def regGet (nets : List (String × Daemon.Network)) (nameOrId : String) :
    Option Daemon.Network :=
  match alookup nets nameOrId with
  | some network => some network
  | none => (nets.find? (fun p => p.2.Name = nameOrId)).map (·.2)

/-- Modelled from the spec: namesgenerator.GetRandomName(i) (code of this
repository not under src/), determinized as an injective sequence of
candidate names. -/
def randomName (i : Nat) : String := "gen" ++ String.mk (List.replicate i 'x')

/-- The name generation loop of NetworkCreate (part_001 lines 52 to 59):
try candidates until one is free. The loop is unbounded in Go; among the
first length+1 injective candidates one is always free, which genName_free
below proves, so the search is complete. -/
def genName (nets : List (String × Daemon.Network)) : String :=
  match (List.range (nets.length + 1)).find?
      (fun i => ¬ existsWithName nets (randomName i)) with
  | some i => randomName i
  | none => ""

/-- Network.Setup (part_001 lines 292 to 299): resolve the driver by name,
fail when it is unregistered, else invoke its Setup; the trace records the
invocation and the record passed. -/
def Daemon.netSetup (drivers : List (String × Daemon.Driver))
    (net : Daemon.Network) (s : DaemonState) :
    Except String Daemon.Network × DaemonState :=
  match alookup drivers net.Driver with
  | none => (.error ("Driver " ++ net.Driver ++ " not found"), s)
  | some d =>
    let s1 := { s with events := s.events ++ [Event.setupCall net.Driver net] }
    let (r, h) := d.setup net s1.host
    (r, { s1 with host := h })

/-- NetworkRegistry save plus Add (part_001 lines 236 to 252): persist the
record, and only on success add it to the in-memory index. -/
def regAdd (s : DaemonState) (net : Daemon.Network) :
    Except String Unit × DaemonState :=
  if s.saveOk then
    (.ok (), { s with persisted := aupsert s.persisted net.ID net,
                      networks := aupsert s.networks net.ID net })
  else
    (.error "write failed", s)

/-- NetworkCreate (part_001 lines 48 to 81): generate a name when none is
given, reject duplicates, build the record, run the driver Setup through
netSetup, and persist plus index it only when everything succeeded. -/
def Daemon.NetworkCreate (drivers : List (String × Daemon.Driver))
    (name driver : String) (labels : StateMap) (s : DaemonState) :
    Except String String × DaemonState :=
  let name := if name = "" then genName s.networks else name
  if existsWithName s.networks name then
    (.error ("Network " ++ name ++ " already exists"), s)
  else
    let net : Daemon.Network :=
      { Driver := driver, ID := genID s.fresh, Name := name,
        Labels := labels, State := [] }
    let s := { s with fresh := s.fresh + 1 }
    match Daemon.netSetup drivers net s with
    | (.error e, s) => (.error e, s)
    | (.ok net, s) =>
      match regAdd s net with
      | (.error e, s) => (.error e, s)
      | (.ok _, s) => (.ok net.ID, s)

/-- endpointOnNetwork (part_001 lines 115 to 126): resolve the network and
mint a fresh Endpoint on it. -/
def Daemon.endpointOnNetwork (s : DaemonState) (namesOrId : String)
    (labels : StateMap) : Except String Daemon.Endpoint :=
  match regGet s.networks namesOrId with
  | none => .error ("Network " ++ namesOrId ++ " not found")
  | some net => .ok { ID := genID s.fresh, Network := net.ID, Labels := labels }

/-- NetworkPlug (part_001 lines 140 to 160): resolve the container, reject a
running one, mint an Endpoint on the resolved network, append it to the
container endpoint list and return its ID. No driver call is issued here. -/
def Daemon.NetworkPlug (_drivers : List (String × Daemon.Driver))
    (containerID nameOrId : String) (labels : StateMap) (s : DaemonState) :
    Except String String × DaemonState :=
  match alookup s.containers containerID with
  | none => (.error ("Container " ++ containerID ++ " not found"), s)
  | some container =>
    if container.running then
      (.error "Cannot plug in running container (yet)", s)
    else
      match Daemon.endpointOnNetwork s nameOrId labels with
      | .error e => (.error e, s)
      | .ok endpoint =>
        (.ok endpoint.ID,
         { s with fresh := s.fresh + 1,
                  containers := (aupsert s.containers containerID
                    { container with
                        Endpoints := container.Endpoints ++ [endpoint] }) })

/-- Modelled from the spec: Container.GetEndpoint (code of this repository
not under src/, its shape mirrored by GetEndpointLib in part_003): the first
index holding an endpoint with the given ID, with that endpoint. -/
def Container.GetEndpoint (c : Container) (endpointID : String) :
    Option (Nat × Daemon.Endpoint) :=
  match c.Endpoints.findIdx? (fun e => e.ID = endpointID) with
  | some i => (c.Endpoints[i]?).map (fun e => (i, e))
  | none => none

/-- NetworkUnplug (part_001 lines 162 to 183): resolve the container, reject
a running one, find the endpoint, and splice it out of the list (the Go
copy idiom removes exactly index i, preserving the order of the rest). No
driver call is issued here. -/
def Daemon.NetworkUnplug (_drivers : List (String × Daemon.Driver))
    (containedID endpointID : String) (s : DaemonState) :
    Except String Unit × DaemonState :=
  match alookup s.containers containedID with
  | none => (.error ("Container " ++ containedID ++ " not found"), s)
  | some container =>
    if container.running then
      (.error "Cannot unplug running container (yet)", s)
    else
      match container.GetEndpoint endpointID with
      | none => (.error ("Endpoint " ++ endpointID ++ " not found"), s)
      | some (i, _) =>
        (.ok (),
         { s with containers := (aupsert s.containers containedID
            { container with Endpoints :=
                container.Endpoints.take i ++ container.Endpoints.drop (i + 1) }) })

/-- Endpoint.Plug (part_001 lines 310 to 329): resolve the network and its
driver, invoke the driver Plug (recorded in the trace), and return the
interface descriptor only when the driver call succeeds. -/
def Daemon.Endpoint.Plug (drivers : List (String × Daemon.Driver))
    (e : Daemon.Endpoint) (s : DaemonState) :
    Except String NetworkInterface × DaemonState :=
  match regGet s.networks e.Network with
  | none => (.error ("Network " ++ e.Network ++ " not found"), s)
  | some net =>
    match alookup drivers net.Driver with
    | none => (.error "Driver not found", s)
    | some d =>
      let s1 := { s with events := s.events ++ [Event.plugCall net.Driver net.ID e.ID] }
      let (r, h) := d.plug net e s1.host
      match r with
      | .error err => (.error err, { s1 with host := h })
      | .ok inf => (.ok inf, { s1 with host := h })

/-- The decoded form of one persisted network file: the JSON decode outcome,
with State optional as in older persisted formats. -/
structure RawNet where
  ID : String
  Name : String
  Driver : String
  Labels : StateMap := []
  State : Option StateMap := none
deriving DecidableEq, Repr

/-- NetworkRegistry.Restore (part_001 lines 192 to 225) over the decode
outcomes of the persisted records: a failed decode aborts; State absent in
the persisted form becomes the empty map, an existing State is passed
untouched; the driver Setup runs through netSetup and a failure aborts; the
result of re-adding the record is ignored exactly as in the source. -/
def Daemon.Restore (drivers : List (String × Daemon.Driver)) (s : DaemonState) :
    List (Except String RawNet) → Except String Unit × DaemonState
  | [] => (.ok (), s)
  | .error e :: _ => (.error e, s)
  | .ok raw :: rest =>
    let network : Daemon.Network :=
      { ID := raw.ID, Name := raw.Name, Driver := raw.Driver,
        Labels := raw.Labels,
        State := match raw.State with
                 | none => []
                 | some st => st }
    match Daemon.netSetup drivers network s with
    | (.error e, s) => (.error e, s)
    | (.ok network, s) =>
      let s := match regAdd s network with
               | (_, s) => s
      Daemon.Restore drivers s rest

/-! ## Claims -/

/-- C3 (code bug). The claim states the intended reading of getBool: the
default is returned if and only if the key is absent or its value fails to
parse, and a present, parsable value is returned parsed. The code inverts
the error test (`if found && err != nil`): with the key present and the
value "true" (which parses as true) it returns the default false; with the
key present and the unparsable value "abc" it returns the ParseBool zero
value false, not the default true. Only the absent-key case agrees with
the claim. -/
theorem claim_C3_getBool_inversion :
    getBool [("k", "true")] "k" false = false ∧
    getBool [("k", "abc")] "k" true = false ∧
    getBool [] "k" true = true := by
  refine ⟨rfl, rfl, rfl⟩

/-- The network used by the C5 evaluation: one runtime allocation for
endpoint ep1 holding 172.17.0.2, which the allocator also records. -/
def c5Net : Simplebridge.Network :=
  { bridgeIface := "docker0"
    bridgeIPv4Addr := 2886806017
    bridgeIPv4Network := ⟨2886795264, 16⟩
    currentInterfaces := [("ep1", ⟨2886795266⟩)]
    ipAllocator := { allocated := [(⟨2886795264, 16⟩, 2886795266)] } }

/-- C5 (code bug). Release fails exactly on an unknown endpoint and
releases the address back to the allocator, but it never removes the
endpoint entry from the runtime allocation table: after a successful
Release of ep1 the allocator no longer holds the address, yet
currentInterfaces still carries the ep1 entry, contradicting the claimed
removal. -/
theorem claim_C5_release_keeps_entry :
    (c5Net.Release "ep1").1 = .ok () ∧
    (c5Net.Release "ep1").2.ipAllocator.allocated = [] ∧
    (c5Net.Release "ep1").2.currentInterfaces = [("ep1", ⟨2886795266⟩)] ∧
    (c5Net.Release "ep2").1 =
      .error "No network information to release for ep2" := by
  refine ⟨rfl, by decide, by decide, rfl⟩

/-- C9 (confirmed). generateMacAddr is a pure function of the IPv4 address:
its value is the literal six byte list [0x02, 0x42] followed by the four
address bytes, so equal addresses always yield equal MACs; and in Allocate
the derived MAC is used exactly when the caller supplies no RequestedMac:
with RequestedMac empty the returned descriptor carries the MAC generated
from the allocated address, and with RequestedMac supplied it carries the
parsed requested MAC instead. -/
theorem claim_C9_mac_derivation :
    (∀ ip : IPv4, generateMacAddr ip =
      [0x02, 0x42, byteOf ip 0, byteOf ip 1, byteOf ip 2, byteOf ip 3]) ∧
    (∀ (n : Simplebridge.Network) (id : String) (conf : config)
       (ip : IPv4) (al : AllocState),
      getString conf "RequestedMac" = "" →
      requestIP n.ipAllocator n.bridgeIPv4Network
          (parseIP (getString conf "RequestedIP")) = (.ok ip, al) →
      (n.Allocate id conf).1 = .ok
        { Gateway := if n.enableDefaultGateway then ipv4ToString n.bridgeIPv4Addr else ""
          IPAddress := ipv4ToString ip
          IPPrefixLen := n.bridgeIPv4Network.maskBits
          MacAddress := macToString (generateMacAddr ip)
          Bridge := n.bridgeIface }) ∧
    (∀ (n : Simplebridge.Network) (id : String) (conf : config)
       (ip : IPv4) (al : AllocState) (mac : MAC),
      getString conf "RequestedMac" ≠ "" →
      requestIP n.ipAllocator n.bridgeIPv4Network
          (parseIP (getString conf "RequestedIP")) = (.ok ip, al) →
      parseMAC (getString conf "RequestedMac") = .ok mac →
      (n.Allocate id conf).1 = .ok
        { Gateway := if n.enableDefaultGateway then ipv4ToString n.bridgeIPv4Addr else ""
          IPAddress := ipv4ToString ip
          IPPrefixLen := n.bridgeIPv4Network.maskBits
          MacAddress := macToString mac
          Bridge := n.bridgeIface }) := by
  refine ⟨fun ip => rfl, ?_, ?_⟩
  · intro n id conf ip al hmac hreq
    simp only [Simplebridge.Network.Allocate]
    rw [hreq, hmac]
    simp
  · intro n id conf ip al mac hmac hreq hparse
    simp only [Simplebridge.Network.Allocate]
    rw [hreq]
    simp [hmac, hparse]

/-- The network used by the C9 witness: a /29 bridge subnet so the free
address scan is small. -/
def c9Net : Simplebridge.Network :=
  { bridgeIface := "docker0"
    bridgeIPv4Addr := 2886795265
    bridgeIPv4Network := ⟨2886795264, 29⟩ }

/-- C9 witness: on a concrete allocation with no RequestedMac, the theorem
yields the descriptor whose MAC is generated from the allocated address. -/
theorem claim_C9_mac_derivation_witness :
    (c9Net.Allocate "ep1" []).1 = .ok
      { Gateway := if c9Net.enableDefaultGateway then ipv4ToString c9Net.bridgeIPv4Addr else ""
        IPAddress := ipv4ToString 2886795264
        IPPrefixLen := c9Net.bridgeIPv4Network.maskBits
        MacAddress := macToString (generateMacAddr 2886795264)
        Bridge := c9Net.bridgeIface } :=
  claim_C9_mac_derivation.2.1 c9Net "ep1" [] 2886795264
    { allocated := [(⟨2886795264, 29⟩, 2886795264)] } rfl rfl

/-- Characterization of the probe loop: from index i with the given fuel it
returns the first free candidate name. -/
theorem findFrom_ok_iff (h : HostState) : ∀ (fuel i : Nat) (nm : String),
    findFromBridgeName h i fuel = .ok nm ↔
      ∃ k, k < fuel ∧ nm = "docker" ++ toString (i + k) ∧
        getIfaceAddr h ("docker" ++ toString (i + k)) = none ∧
        ∀ m, m < k → getIfaceAddr h ("docker" ++ toString (i + m)) ≠ none := by
  intro fuel
  induction fuel with
  | zero =>
    intro i nm
    simp [findFromBridgeName]
  | succ fuel ih =>
    intro i nm
    rw [findFromBridgeName]
    cases hga : getIfaceAddr h ("docker" ++ toString i) with
    | none =>
      simp only []
      constructor
      · intro hok
        refine ⟨0, Nat.succ_pos _, ?_, ?_, ?_⟩
        · cases hok; simp
        · simpa using hga
        · intro m hm; omega
      · rintro ⟨k, hk, hnm, hfree, hbusy⟩
        rcases Nat.eq_zero_or_pos k with rfl | hkpos
        · simp at hnm; simp [hnm]
        · exact absurd hga (by simpa using hbusy 0 hkpos)
    | some v =>
      simp only []
      rw [ih (i + 1) nm]
      constructor
      · rintro ⟨k, hk, hnm, hfree, hbusy⟩
        refine ⟨k + 1, by omega, by simpa [Nat.add_assoc, Nat.add_comm 1 k] using hnm,
          by simpa [Nat.add_assoc, Nat.add_comm 1 k] using hfree, ?_⟩
        intro m hm
        rcases Nat.eq_zero_or_pos m with rfl | hmpos
        · simp [hga]
        · have := hbusy (m - 1) (by omega)
          simpa [show i + 1 + (m - 1) = i + m by omega] using this
      · rintro ⟨k, hk, hnm, hfree, hbusy⟩
        rcases Nat.eq_zero_or_pos k with rfl | hkpos
        · simp only [Nat.add_zero] at hnm hfree
          rw [hga] at hfree
          exact absurd hfree (by simp)
        · refine ⟨k - 1, by omega, by simpa [show i + 1 + (k - 1) = i + k by omega] using hnm,
            by simpa [show i + 1 + (k - 1) = i + k by omega] using hfree, ?_⟩
          intro m hm
          have := hbusy (m + 1) (by omega)
          simpa [show i + (m + 1) = i + 1 + m by omega] using this

/-- Characterization of the probe loop error: every candidate was busy. -/
theorem findFrom_error_iff (h : HostState) : ∀ (fuel i : Nat),
    findFromBridgeName h i fuel = .error "Cannot find free bridge name" ↔
      ∀ k, k < fuel → getIfaceAddr h ("docker" ++ toString (i + k)) ≠ none := by
  intro fuel
  induction fuel with
  | zero => intro i; simp [findFromBridgeName]
  | succ fuel ih =>
    intro i
    rw [findFromBridgeName]
    cases hga : getIfaceAddr h ("docker" ++ toString i) with
    | none =>
      simp only []
      constructor
      · intro hok; cases hok
      · intro hbusy
        exact absurd hga (by simpa using hbusy 0 (Nat.succ_pos _))
    | some v =>
      simp only []
      rw [ih (i + 1)]
      constructor
      · intro hbusy k hk
        rcases Nat.eq_zero_or_pos k with rfl | hkpos
        · simp [hga]
        · have := hbusy (k - 1) (by omega)
          simpa [show i + 1 + (k - 1) = i + k by omega] using this
      · intro hbusy k hk
        have := hbusy (k + 1) (by omega)
        simpa [show i + (k + 1) = i + 1 + k by omega] using this

/-- C10 (confirmed). findFreeBridgeName probes the ten candidates docker0
through docker9 in ascending order: it answers exactly the first candidate
for which the host reports no interface address, errors exactly when all
ten candidates exist, and when no bridge interface name is configured
NewNetwork adopts exactly the name this probe found. -/
theorem claim_C10_bridge_name_probe (h : HostState) :
    (∀ nm, findFreeBridgeName h = .ok nm ↔
      ∃ i, i < 10 ∧ nm = "docker" ++ toString i ∧
        getIfaceAddr h ("docker" ++ toString i) = none ∧
        ∀ j, j < i → getIfaceAddr h ("docker" ++ toString j) ≠ none) ∧
    (findFreeBridgeName h = .error "Cannot find free bridge name" ↔
      ∀ i, i < 10 → getIfaceAddr h ("docker" ++ toString i) ≠ none) ∧
    (∀ (conf : config) (net : Simplebridge.Network),
      getString conf "BridgeIface" = "" →
      Simplebridge.NewNetwork conf h = .ok net →
      findFreeBridgeName h = .ok net.bridgeIface) := by
  refine ⟨?_, ?_, ?_⟩
  · intro nm
    have := findFrom_ok_iff h 10 0 nm
    simpa [findFreeBridgeName] using this
  · have := findFrom_error_iff h 10 0
    simpa [findFreeBridgeName] using this
  · intro conf net hbi hok
    unfold Simplebridge.NewNetwork at hok
    simp only [hbi, ↓reduceIte] at hok
    cases hff : findFreeBridgeName h with
    | error e => rw [hff] at hok; exact absurd hok (by simp)
    | ok ifname =>
      rw [hff] at hok
      simp only [] at hok
      repeat' split at hok
      all_goals first
        | (refine absurd hok ?_ ; simp ; done)
        | (cases hok; simp [hff])

/-- The network NewNetwork resolves from an empty configuration against an
empty host: bridge name docker0 and the first candidate private range. -/
def c10Net : Simplebridge.Network :=
  { bridgeIface := "docker0"
    bridgeIPv4Addr := 2886806017
    bridgeIPv4Network := ⟨2886795264, 16⟩
    enableICC := true }

/-- C10 witness: on the empty host, NewNetwork with an empty configuration
resolves c10Net, and the theorem reports docker0 as the probed name. -/
theorem claim_C10_bridge_name_probe_witness :
    findFreeBridgeName ({} : HostState) = .ok c10Net.bridgeIface :=
  (claim_C10_bridge_name_probe {}).2.2 [] c10Net rfl (by rfl)

/-- A registered driver whose Plug always fails, used to exercise the claim
that the registry Plug attaches an endpoint only when the driver call
succeeds. -/
def failDriver : Daemon.Driver :=
  { setup := fun net h => (.ok net, h)
    destroy := fun _ h => (.ok (), h)
    plug := fun _ _ h => (.error "simulated plug failure", h)
    unplug := fun _ _ h => (.ok (), h) }

/-- The driver table of the C1 scenario. -/
def c1Drivers : List (String × Daemon.Driver) := [("fd", failDriver)]

/-- The network of the C1 scenario, backed by the failing driver. -/
def c1Net : Daemon.Network := { ID := "n1", Name := "net", Driver := "fd" }

/-- The C1 scenario: one resolvable network and one stopped container. -/
def c1State : DaemonState :=
  { networks := [("n1", c1Net)], containers := [("c1", {})] }

/-- C1 counterexample. With a stopped container, a resolvable network, and
the resolved driver being one whose Plug fails, NetworkPlug nevertheless
succeeds: it appends the new Endpoint to the container list, returns its
ID, and issues no driver call at all (the driver-call trace stays empty),
refuting the claim that the Endpoint is appended only when the driver Plug
call succeeds. -/
theorem claim_C1_counterexample :
    (Daemon.NetworkPlug c1Drivers "c1" "n1" [] c1State).1 = .ok "id0" ∧
    (Daemon.NetworkPlug c1Drivers "c1" "n1" [] c1State).2.events = [] ∧
    alookup (Daemon.NetworkPlug c1Drivers "c1" "n1" [] c1State).2.containers "c1" =
      some { running := false,
             Endpoints := [{ ID := "id0", Network := "n1", Labels := [] }] } ∧
    alookup c1Drivers c1Net.Driver = some failDriver ∧
    (failDriver.plug c1Net { ID := "id0", Network := "n1" } c1State.host).1 =
      .error "simulated plug failure" := by
  refine ⟨rfl, by decide, by decide, rfl, rfl⟩

/-- C1 (amended). NetworkPlug does not invoke the resolved driver Plug:
once the container is found and stopped and the network resolves, it
creates the Endpoint and appends it to the container list unconditionally,
returning its ID and leaving the driver-call trace untouched. The driver
Plug is invoked later by Endpoint.Plug, which returns the interface
descriptor exactly when the driver call succeeds and propagates the driver
error otherwise. -/
theorem claim_C1_amended :
    (∀ (drivers : List (String × Daemon.Driver)) (s : DaemonState)
       (cid nid : String) (labels : StateMap) (c : Container) (net : Daemon.Network),
      alookup s.containers cid = some c →
      c.running = false →
      regGet s.networks nid = some net →
      Daemon.NetworkPlug drivers cid nid labels s =
        (.ok (genID s.fresh),
         { s with fresh := s.fresh + 1,
                  containers := (aupsert s.containers cid
                    { c with Endpoints := c.Endpoints ++
                        [{ ID := genID s.fresh, Network := net.ID, Labels := labels }] }) })) ∧
    (∀ (drivers : List (String × Daemon.Driver)) (e : Daemon.Endpoint)
       (s : DaemonState) (net : Daemon.Network) (d : Daemon.Driver),
      regGet s.networks e.Network = some net →
      alookup drivers net.Driver = some d →
      (∀ err h', d.plug net e s.host = (.error err, h') →
        Daemon.Endpoint.Plug drivers e s =
          (.error err,
           { s with host := h',
                    events := s.events ++ [Event.plugCall net.Driver net.ID e.ID] })) ∧
      (∀ inf h', d.plug net e s.host = (.ok inf, h') →
        Daemon.Endpoint.Plug drivers e s =
          (.ok inf,
           { s with host := h',
                    events := s.events ++ [Event.plugCall net.Driver net.ID e.ID] }))) := by
  constructor
  · intro drivers s cid nid labels c net hc hrun hnet
    simp only [Daemon.NetworkPlug, hc, hrun, Daemon.endpointOnNetwork, hnet]
    simp
  · intro drivers e s net d hnet hd
    constructor
    · intro err h' hplug
      simp only [Daemon.Endpoint.Plug, hnet, hd, hplug]
    · intro inf h' hplug
      simp only [Daemon.Endpoint.Plug, hnet, hd, hplug]

/-- C1 witness: both parts of the amended claim at the concrete scenario:
the plug of a stopped container appends the endpoint without any driver
call, and Endpoint.Plug then surfaces the driver failure. -/
theorem claim_C1_amended_witness :
    (Daemon.NetworkPlug c1Drivers "c1" "n1" [] c1State =
      (.ok (genID c1State.fresh),
       { c1State with
           fresh := c1State.fresh + 1,
           containers := (aupsert c1State.containers "c1"
             { running := false,
               Endpoints := [{ ID := genID c1State.fresh, Network := "n1",
                               Labels := [] }] }) })) ∧
    (Daemon.Endpoint.Plug c1Drivers { ID := "id0", Network := "n1" } c1State =
      (.error "simulated plug failure",
       { c1State with events := [Event.plugCall "fd" "n1" "id0"] })) :=
  ⟨claim_C1_amended.1 c1Drivers c1State "c1" "n1" [] {} c1Net rfl rfl rfl,
   (claim_C1_amended.2 c1Drivers { ID := "id0", Network := "n1" } c1State c1Net
      failDriver rfl rfl).1 "simulated plug failure" c1State.host rfl⟩

/-- Inversion of a successful GetEndpoint lookup: the index is the first
match, the element sits at that index, and it carries the looked-up ID. -/
theorem getEndpoint_some (c : Container) (epid : String) (i : Nat) (e : Daemon.Endpoint)
    (hge : c.GetEndpoint epid = some (i, e)) :
    c.Endpoints.findIdx? (fun ep => ep.ID = epid) = some i ∧
    c.Endpoints[i]? = some e ∧ e.ID = epid := by
  unfold Container.GetEndpoint at hge
  cases hf : c.Endpoints.findIdx? (fun ep => ep.ID = epid) with
  | none => simp [hf] at hge
  | some j =>
    simp only [hf] at hge
    cases hg : c.Endpoints[j]? with
    | none => simp [hg] at hge
    | some e' =>
      simp only [hg, Option.map_some'] at hge
      obtain ⟨rfl, rfl⟩ : j = i ∧ e' = e :=
        ⟨congrArg Prod.fst (Option.some.inj hge), congrArg Prod.snd (Option.some.inj hge)⟩
      refine ⟨rfl, hg, ?_⟩
      obtain ⟨hlt, hp, _⟩ := List.findIdx?_eq_some_iff_getElem.mp hf
      have he : c.Endpoints[j] = e' := by
        simpa [List.getElem?_eq_getElem hlt] using hg
      rw [he] at hp
      simpa using hp

/-- C8 (confirmed). Against a container whose running flag is true, both
NetworkPlug and NetworkUnplug fail with the running-container error and
return the state completely unchanged (no endpoint added or removed, no
driver call recorded). Against a stopped container, NetworkUnplug fails
with the endpoint-not-found error when the ID resolves to no endpoint, and
on success removes exactly the endpoint at the resolved index (which
carries the requested ID), splicing the list and preserving the order of
the remaining endpoints. -/
theorem claim_C8_running_guard_and_unplug :
    ∀ (drivers : List (String × Daemon.Driver)) (s : DaemonState)
      (cid : String) (c : Container),
      alookup s.containers cid = some c →
      ((c.running = true →
         (∀ nid labels, Daemon.NetworkPlug drivers cid nid labels s =
            (.error "Cannot plug in running container (yet)", s)) ∧
         (∀ epid, Daemon.NetworkUnplug drivers cid epid s =
            (.error "Cannot unplug running container (yet)", s))) ∧
       (c.running = false →
         ∀ epid,
           (c.GetEndpoint epid = none →
             Daemon.NetworkUnplug drivers cid epid s =
               (.error ("Endpoint " ++ epid ++ " not found"), s)) ∧
           (∀ i e, c.GetEndpoint epid = some (i, e) →
             c.Endpoints[i]? = some e ∧ e.ID = epid ∧
             Daemon.NetworkUnplug drivers cid epid s =
               (.ok (), { s with containers := (aupsert s.containers cid
                  { c with Endpoints :=
                      c.Endpoints.take i ++ c.Endpoints.drop (i + 1) }) })))) := by
  intro drivers s cid c hc
  constructor
  · intro hrun
    constructor
    · intro nid labels
      simp only [Daemon.NetworkPlug, hc, hrun]
      simp
    · intro epid
      simp only [Daemon.NetworkUnplug, hc, hrun]
      simp
  · intro hrun epid
    constructor
    · intro hge
      simp only [Daemon.NetworkUnplug, hc, hrun, hge]
      simp
    · intro i e hge
      obtain ⟨hfind, hget, hid⟩ := getEndpoint_some c epid i e hge
      refine ⟨hget, hid, ?_⟩
      simp only [Daemon.NetworkUnplug, hc, hrun, hge]
      simp

/-- A running container for the C8 witness. -/
def c8Run : DaemonState := { containers := [("c1", { running := true })] }

/-- A stopped container holding three endpoints for the C8 witness. -/
def c8Cont : Container :=
  { Endpoints := [{ ID := "e1", Network := "n1" }, { ID := "e2", Network := "n1" },
                  { ID := "e3", Network := "n1" }] }

/-- The daemon state of the C8 removal scenario. -/
def c8St : DaemonState := { containers := [("c1", c8Cont)] }

/-- C8 witness: the running guard refuses plug and unplug without touching
the state, a missing endpoint reports not found, and removing e2 keeps e1
and e3 in order. -/
theorem claim_C8_running_guard_and_unplug_witness :
    (Daemon.NetworkPlug [] "c1" "n1" [] c8Run =
      (.error "Cannot plug in running container (yet)", c8Run)) ∧
    (Daemon.NetworkUnplug [] "c1" "e9" c8Run =
      (.error "Cannot unplug running container (yet)", c8Run)) ∧
    (Daemon.NetworkUnplug [] "c1" "zz" c8St =
      (.error ("Endpoint " ++ "zz" ++ " not found"), c8St)) ∧
    (Daemon.NetworkUnplug [] "c1" "e2" c8St =
      (.ok (), { c8St with containers := (aupsert c8St.containers "c1"
         { c8Cont with Endpoints :=
             c8Cont.Endpoints.take 1 ++ c8Cont.Endpoints.drop 2 }) })) :=
  ⟨((claim_C8_running_guard_and_unplug [] c8Run "c1" { running := true } rfl).1 rfl).1 "n1" [],
   ((claim_C8_running_guard_and_unplug [] c8Run "c1" { running := true } rfl).1 rfl).2 "e9",
   ((claim_C8_running_guard_and_unplug [] c8St "c1" c8Cont rfl).2 rfl "zz").1 (by decide),
   (((claim_C8_running_guard_and_unplug [] c8St "c1" c8Cont rfl).2 rfl "e2").2 1
      { ID := "e2", Network := "n1" } (by decide)).2.2⟩

/-- A name exists in the registry exactly when some stored network carries
it. -/
theorem existsWithName_iff (nets : List (String × Daemon.Network)) (nm : String) :
    existsWithName nets nm = true ↔ nm ∈ nets.map (fun p => p.2.Name) := by
  unfold existsWithName
  rw [List.any_eq_true]
  constructor
  · rintro ⟨p, hp, hname⟩
    simp only [decide_eq_true_eq] at hname
    exact List.mem_map.mpr ⟨p, hp, hname⟩
  · intro hmem
    obtain ⟨p, hp, rfl⟩ := List.mem_map.mp hmem
    exact ⟨p, hp, by simp⟩

/-- The generated name is always free: among length+1 injective candidates
at least one avoids the length-many stored names, so the Go retry loop
terminates with a free name. -/
theorem genName_free (nets : List (String × Daemon.Network)) :
    existsWithName nets (genName nets) = false := by
  unfold genName
  cases hf : (List.range (nets.length + 1)).find?
      (fun i => ¬ existsWithName nets (randomName i)) with
  | some i =>
    simp only []
    have hp := List.find?_some hf
    simp only [decide_eq_true_eq] at hp
    exact Bool.not_eq_true _ ▸ hp
  | none =>
    exfalso
    have hall : ∀ i ∈ List.range (nets.length + 1),
        existsWithName nets (randomName i) = true := by
      intro i hi
      have hq := List.find?_eq_none.mp hf i hi
      simp only [decide_eq_true_eq, Decidable.not_not] at hq
      exact hq
    have hsub : (List.range (nets.length + 1)).map randomName ⊆
        nets.map (fun p => p.2.Name) := by
      intro nm hnm
      rw [List.mem_map] at hnm
      obtain ⟨i, hi, rfl⟩ := hnm
      exact (existsWithName_iff nets (randomName i)).mp (hall i hi)
    have hinj : Function.Injective randomName := by
      intro a b hab
      have hlen := congrArg String.length hab
      simp [randomName, String.length] at hlen
      omega
    have hnd : ((List.range (nets.length + 1)).map randomName).Nodup :=
      (List.nodup_range _).map hinj
    have hle := (hnd.subperm hsub).length_le
    simp only [List.length_map, List.length_range] at hle
    omega

/-- netSetup only touches the host and the event trace: the registry index,
the persisted records, the containers, the counter and the save switch all
pass through unchanged. -/
theorem netSetup_preserves (drivers : List (String × Daemon.Driver))
    (net : Daemon.Network) (s : DaemonState) (r : Except String Daemon.Network)
    (s' : DaemonState) (h : Daemon.netSetup drivers net s = (r, s')) :
    s'.networks = s.networks ∧ s'.persisted = s.persisted ∧
    s'.containers = s.containers ∧ s'.fresh = s.fresh ∧ s'.saveOk = s.saveOk := by
  unfold Daemon.netSetup at h
  split at h
  · cases h; exact ⟨rfl, rfl, rfl, rfl, rfl⟩
  · cases h; exact ⟨rfl, rfl, rfl, rfl, rfl⟩

/-- A failed regAdd (persisting declined) leaves the state untouched. -/
theorem regAdd_error (s : DaemonState) (net : Daemon.Network) (e : String)
    (s' : DaemonState) (h : regAdd s net = (.error e, s')) : s' = s := by
  unfold regAdd at h
  split at h
  · cases h
  · cases h; rfl

/-- C7 (confirmed). NetworkCreate with an unregistered driver name fails
with the driver-not-found error (for any labels, and for any name that is
empty or does not collide; a colliding name fails earlier with the
conflict error, which the claim covers as one of the other failures), and
on every failure, of any kind, the in-memory network index and the
persisted records are exactly what they were before the call. -/
theorem claim_C7_create_no_partial_state :
    ∀ (drivers : List (String × Daemon.Driver)) (name driver : String)
      (labels : StateMap) (s : DaemonState),
      (alookup drivers driver = none →
        (name = "" ∨ existsWithName s.networks name = false) →
        (Daemon.NetworkCreate drivers name driver labels s).1 =
          .error ("Driver " ++ driver ++ " not found")) ∧
      (∀ e s', Daemon.NetworkCreate drivers name driver labels s = (.error e, s') →
        s'.networks = s.networks ∧ s'.persisted = s.persisted) := by
  intro drivers name driver labels s
  constructor
  · intro hd hname
    unfold Daemon.NetworkCreate
    have hfree : existsWithName s.networks
        (if name = "" then genName s.networks else name) = false := by
      rcases hname with rfl | hn
      · simp [genName_free]
      · by_cases hne : name = ""
        · simp [hne, genName_free]
        · simp [hne, hn]
    simp only [hfree]
    simp only [Bool.false_eq_true, if_false]
    simp only [Daemon.netSetup]
    simp only [hd]
  · intro e s' h
    unfold Daemon.NetworkCreate at h
    dsimp only at h
    by_cases hex : existsWithName s.networks
        (if name = "" then genName s.networks else name) = true
    · rw [if_pos hex] at h
      cases h
      exact ⟨rfl, rfl⟩
    · rw [if_neg hex] at h
      cases hns : Daemon.netSetup drivers
          { ID := genID s.fresh,
            Name := if name = "" then genName s.networks else name,
            Driver := driver, Labels := labels, State := [] }
          { s with fresh := s.fresh + 1 } with
      | mk r s2 =>
        rw [hns] at h
        cases r with
        | error err =>
          simp only [] at h
          cases h
          have hpres := netSetup_preserves _ _ _ _ _ hns
          exact ⟨hpres.1, hpres.2.1⟩
        | ok net2 =>
          simp only [] at h
          cases hra : regAdd s2 net2 with
          | mk r2 s3 =>
            rw [hra] at h
            cases r2 with
            | error e2 =>
              simp only [] at h
              cases h
              have h1 := regAdd_error _ _ _ _ hra
              have h2 := netSetup_preserves _ _ _ _ _ hns
              rw [h1]
              exact ⟨h2.1, h2.2.1⟩
            | ok u =>
              simp only [] at h
              cases h

/-- C7 witness: creating against an empty registry with the unregistered
driver name missing fails with the driver-not-found error, and the failed
call left the index and the persisted records unchanged. -/
theorem claim_C7_create_no_partial_state_witness :
    ((Daemon.NetworkCreate [] "mynet" "missing" [] {}).1 =
      .error ("Driver " ++ "missing" ++ " not found")) ∧
    (({ fresh := 1 } : DaemonState).networks = ({} : DaemonState).networks ∧
     ({ fresh := 1 } : DaemonState).persisted = ({} : DaemonState).persisted) :=
  ⟨(claim_C7_create_no_partial_state [] "mynet" "missing" [] {}).1 rfl (Or.inr rfl),
   (claim_C7_create_no_partial_state [] "mynet" "missing" [] {}).2
     ("Driver " ++ "missing" ++ " not found") { fresh := 1 } rfl⟩

/-- C6 (confirmed). Restore over the decode outcomes of the persisted
records: an empty directory restores trivially; a record whose decode
failed aborts the whole restore with that error; a decoded record is given
an empty State exactly when the persisted form had none (an existing State
is passed untouched), and the resolved driver Setup is called on that
record: an unregistered driver aborts with the driver-not-found error, a
Setup failure aborts with the Setup error, and on success the record is
re-added (its result ignored, as in the source) and the remaining records
are processed. -/
theorem claim_C6_restore :
    ∀ (drivers : List (String × Daemon.Driver)) (s : DaemonState),
      (Daemon.Restore drivers s [] = (.ok (), s)) ∧
      (∀ e rest, Daemon.Restore drivers s (.error e :: rest) = (.error e, s)) ∧
      (∀ (raw : RawNet) (rest : List (Except String RawNet)) (net0 : Daemon.Network),
        net0 = { ID := raw.ID, Name := raw.Name, Driver := raw.Driver,
                 Labels := raw.Labels,
                 State := match raw.State with
                          | none => []
                          | some st => st } →
        ((alookup drivers raw.Driver = none →
           Daemon.Restore drivers s (.ok raw :: rest) =
             (.error ("Driver " ++ raw.Driver ++ " not found"), s)) ∧
         (∀ d, alookup drivers raw.Driver = some d →
           (∀ e h', d.setup net0 s.host = (.error e, h') →
             Daemon.Restore drivers s (.ok raw :: rest) =
               (.error e,
                { s with host := h',
                         events := s.events ++ [Event.setupCall raw.Driver net0] })) ∧
           (∀ net' h', d.setup net0 s.host = (.ok net', h') →
             Daemon.Restore drivers s (.ok raw :: rest) =
               Daemon.Restore drivers
                 (regAdd { s with host := h',
                                  events := s.events ++ [Event.setupCall raw.Driver net0] }
                    net').2 rest)))) := by
  intro drivers s
  refine ⟨rfl, fun e rest => rfl, ?_⟩
  rintro raw rest net0 rfl
  constructor
  · intro hd
    rw [Daemon.Restore]
    simp only [Daemon.netSetup, hd]
  · intro d hd
    constructor
    · intro e h' hsetup
      rw [Daemon.Restore]
      simp only [Daemon.netSetup, hd, hsetup]
    · intro net' h' hsetup
      rw [Daemon.Restore]
      simp only [Daemon.netSetup, hd, hsetup]

/-- A persisted record with an existing State map, for the C6 witness. -/
def c6Raw : RawNet :=
  { ID := "n7", Name := "a", Driver := "fd", State := some [("k", "v")] }

/-- The decoded network record of c6Raw: its existing State untouched. -/
def c6Net0 : Daemon.Network :=
  { ID := "n7", Name := "a", Driver := "fd", Labels := [], State := [("k", "v")] }

/-- C6 witness: the four behaviors of Restore at concrete inputs: empty
directory, failed decode, unregistered driver, and a successful Setup that
passes the existing State through. -/
theorem claim_C6_restore_witness :
    (Daemon.Restore c1Drivers c1State [] = (.ok (), c1State)) ∧
    (Daemon.Restore c1Drivers c1State [.error "decode fail"] =
      (.error "decode fail", c1State)) ∧
    (Daemon.Restore [] c1State [.ok c6Raw] =
      (.error ("Driver " ++ "fd" ++ " not found"), c1State)) ∧
    (Daemon.Restore c1Drivers c1State [.ok c6Raw] =
      Daemon.Restore c1Drivers
        (regAdd { c1State with
                    host := c1State.host,
                    events := c1State.events ++ [Event.setupCall "fd" c6Net0] }
           c6Net0).2 []) :=
  ⟨(claim_C6_restore c1Drivers c1State).1,
   (claim_C6_restore c1Drivers c1State).2.1 "decode fail" [],
   ((claim_C6_restore [] c1State).2.2 c6Raw [] c6Net0 rfl).1 rfl,
   (((claim_C6_restore c1Drivers c1State).2.2 c6Raw [] c6Net0 rfl).2 failDriver rfl).2
     c6Net0 c1State.host rfl⟩

theorem iptRaw_nat_insert (h : HostState) (chain : String) (args : List String) :
    iptRaw h (["-t", "nat", "-I", chain] ++ args) =
      (iptInsert h ⟨.nat, chain, args⟩, "", none) := rfl

theorem iptRaw_filter_insert (h : HostState) (chain : String) (args : List String) :
    iptRaw h (["-I", chain] ++ args) =
      (iptInsert h ⟨.filter, chain, args⟩, "", none) := rfl

theorem iptRaw_filter_delete (h : HostState) (chain : String) (args : List String) :
    iptRaw h (["-D", chain] ++ args) =
      (iptDelete h ⟨.filter, chain, args⟩, "", none) := rfl

theorem masqStep_eq (n : Simplebridge.Network) (h : HostState) :
    n.masqStep h = (none,
      if n.enableIPMasq then
        if ¬ iptExists h .nat "POSTROUTING" n.natArgs then
          iptInsert h ⟨.nat, "POSTROUTING", n.natArgs⟩
        else h
      else h) := by
  unfold Simplebridge.Network.masqStep
  rw [iptRaw_nat_insert]
  by_cases h1 : n.enableIPMasq <;> simp [h1] <;> split <;> rfl

theorem iccStep_eq (n : Simplebridge.Network) (h : HostState) :
    n.iccStep h = (none,
      if ¬ n.enableICC then
        if ¬ iptExists (iptDelete h ⟨.filter, "FORWARD", n.acceptArgs⟩)
            .filter "FORWARD" n.dropArgs then
          iptInsert (iptDelete h ⟨.filter, "FORWARD", n.acceptArgs⟩)
            ⟨.filter, "FORWARD", n.dropArgs⟩
        else iptDelete h ⟨.filter, "FORWARD", n.acceptArgs⟩
      else
        if ¬ iptExists (iptDelete h ⟨.filter, "FORWARD", n.dropArgs⟩)
            .filter "FORWARD" n.acceptArgs then
          iptInsert (iptDelete h ⟨.filter, "FORWARD", n.dropArgs⟩)
            ⟨.filter, "FORWARD", n.acceptArgs⟩
        else iptDelete h ⟨.filter, "FORWARD", n.dropArgs⟩) := by
  unfold Simplebridge.Network.iccStep
  rw [iptRaw_filter_delete, iptRaw_filter_delete]
  simp only []
  rw [iptRaw_filter_insert, iptRaw_filter_insert]
  by_cases h1 : n.enableICC <;> simp [h1] <;> split <;> rfl

theorem outgoingStep_eq (n : Simplebridge.Network) (h : HostState) :
    n.outgoingStep h = (none,
      if ¬ iptExists h .filter "FORWARD" n.outgoingArgs then
        iptInsert h ⟨.filter, "FORWARD", n.outgoingArgs⟩
      else h) := by
  unfold Simplebridge.Network.outgoingStep
  rw [iptRaw_filter_insert]
  simp only []
  split <;> simp

theorem existingStep_eq (n : Simplebridge.Network) (h : HostState) :
    n.existingStep h = (none,
      if ¬ iptExists h .filter "FORWARD" n.existingArgs then
        iptInsert h ⟨.filter, "FORWARD", n.existingArgs⟩
      else h) := by
  unfold Simplebridge.Network.existingStep
  rw [iptRaw_filter_insert]
  simp only []
  split <;> simp

theorem setupIPTables_run (n : Simplebridge.Network) (h : HostState) :
    n.setupIPTables h =
      (none, (n.existingStep ((n.outgoingStep ((n.iccStep
        ((n.masqStep h).2)).2)).2)).2) := by
  unfold Simplebridge.Network.setupIPTables
  conv_lhs => rw [masqStep_eq]
  simp only [seqStep]
  conv_lhs => rw [iccStep_eq]
  simp only [seqStep]
  conv_lhs => rw [outgoingStep_eq]
  simp only [seqStep]
  conv_lhs => rw [existingStep_eq]
  simp [masqStep_eq, iccStep_eq, outgoingStep_eq, existingStep_eq]

theorem newChain_ifaces (h : HostState) (t : IptTable) (nm : String) :
    (newChain h t nm).ifaces = h.ifaces := by
  cases t <;> (simp only [newChain]; split <;> rfl)

theorem newChain_rules (h : HostState) (t : IptTable) (nm : String) :
    (newChain h t nm).rules = h.rules := by
  cases t <;> (simp only [newChain]; split <;> rfl)

theorem masqStep_ifaces (n : Simplebridge.Network) (h : HostState) :
    ((n.masqStep h).2).ifaces = h.ifaces := by
  rw [masqStep_eq]; dsimp only; repeat' split
  all_goals simp [iptInsert, iptDelete]

theorem iccStep_ifaces (n : Simplebridge.Network) (h : HostState) :
    ((n.iccStep h).2).ifaces = h.ifaces := by
  rw [iccStep_eq]; dsimp only; repeat' split
  all_goals simp [iptInsert, iptDelete]

theorem outgoingStep_ifaces (n : Simplebridge.Network) (h : HostState) :
    ((n.outgoingStep h).2).ifaces = h.ifaces := by
  rw [outgoingStep_eq]; dsimp only; repeat' split
  all_goals simp [iptInsert, iptDelete]

theorem existingStep_ifaces (n : Simplebridge.Network) (h : HostState) :
    ((n.existingStep h).2).ifaces = h.ifaces := by
  rw [existingStep_eq]; dsimp only; repeat' split
  all_goals simp [iptInsert, iptDelete]

theorem setupIPTables_ifaces (n : Simplebridge.Network) (h : HostState) :
    ((n.setupIPTables h).2).ifaces = h.ifaces := by
  rw [setupIPTables_run]; dsimp only
  rw [existingStep_ifaces, outgoingStep_ifaces, iccStep_ifaces, masqStep_ifaces]


theorem match_pair_snd {α β γ : Type} (e : α × β) (f : α → β → γ) :
    (match e with | (a, b) => f a b) = f e.1 e.2 := by
  cases e; rfl

theorem removeExistingChain_ifaces (h : HostState) (nm : String) :
    (removeExistingChain h nm).ifaces = h.ifaces := rfl

theorem removeExistingChain_rules (h : HostState) (nm : String) :
    (removeExistingChain h nm).rules = h.rules := rfl

theorem setupTail_run (n : Simplebridge.Network) (h : HostState) (al : AllocState) :
    ∃ h' al', n.setupTail h al = (none, h', al') ∧
      h'.ifaces = (if n.enableIPTables then ((n.setupIPTables h).2) else h).ifaces ∧
      h'.rules = (if n.enableIPTables then ((n.setupIPTables h).2) else h).rules := by
  unfold Simplebridge.Network.setupTail
  by_cases hipt : n.enableIPTables = true
  all_goals cases hf4 : n.fixedIPv4Subnet
  all_goals cases hf6 : n.fixedIPv6Subnet
  all_goals simp only [hipt, hf4, hf6, registerSubnet, setupIPTables_run,
    match_pair_snd, if_true, if_false, Bool.false_eq_true, ite_true, ite_false]
  all_goals refine ⟨_, _, rfl, ?_, ?_⟩
  all_goals simp [newChain_ifaces, newChain_rules, removeExistingChain_ifaces,
    removeExistingChain_rules]
  all_goals split
  all_goals simp [newChain_ifaces, newChain_rules]

theorem alookup_aupsert {α : Type} (l : List (String × α)) (k k' : String) (v : α) :
    alookup (aupsert l k v) k' = if k = k' then some v else alookup l k' := by
  induction l with
  | nil => by_cases hkk : k = k' <;> simp [aupsert, alookup, hkk]
  | cons hd tl ih =>
    obtain ⟨k0, v0⟩ := hd
    by_cases h0 : k0 = k
    · subst h0
      by_cases hkk : k0 = k' <;> simp [aupsert, alookup, hkk]
    · by_cases hkk : k0 = k'
      · subst hkk
        have hne : ¬ k = k0 := fun hh => h0 hh.symm
        simp [aupsert, alookup, h0, hne]
      · simp [aupsert, alookup, h0, hkk, ih]

theorem modifyIface_lookup (h : HostState) (name : String) (f : Iface → Iface)
    (name' : String) :
    alookup (modifyIface h name f).ifaces name' =
      if name = name' then (alookup h.ifaces name').map f
      else alookup h.ifaces name' := by
  unfold modifyIface
  cases halo : alookup h.ifaces name with
  | none =>
    by_cases hkk : name = name' <;> simp [hkk]
    subst hkk; simp [halo]
  | some ifc =>
    by_cases hkk : name = name'
    · subst hkk; simp [alookup_aupsert, halo]
    · simp [alookup_aupsert, hkk]

theorem ipt_if_ifaces (n : Simplebridge.Network) (h : HostState) :
    (if n.enableIPTables then ((n.setupIPTables h).2) else h).ifaces = h.ifaces := by
  split
  · exact setupIPTables_ifaces n h
  · rfl

theorem setupTail_ifaces_all (n : Simplebridge.Network) (h : HostState)
    (al : AllocState) (r : Option String) (h' : HostState) (al' : AllocState)
    (hrun : n.setupTail h al = (r, h', al')) : h'.ifaces = h.ifaces := by
  obtain ⟨h2, al2, heq, hif, _⟩ := setupTail_run n h al
  rw [heq] at hrun
  obtain ⟨rfl, rfl⟩ : h' = h2 ∧ al' = al2 := by
    have h1 := congrArg (fun p => p.2.1) hrun
    have h2 := congrArg (fun p => p.2.2) hrun
    exact ⟨h1.symm, h2.symm⟩
  rw [hif, ipt_if_ifaces]

theorem setupIPv6Check_ipv4 (n : Simplebridge.Network) (h : HostState)
    (al : AllocState) (r : Option String) (h' : HostState) (al' : AllocState)
    (ifc : Iface)
    (hrun : n.setupIPv6Check h al = (r, h', al'))
    (hc : alookup h.ifaces n.bridgeIface = some ifc) :
    ∃ ifc', alookup h'.ifaces n.bridgeIface = some ifc' ∧ ifc'.ipv4 = ifc.ipv4 := by
  unfold Simplebridge.Network.setupIPv6Check at hrun
  by_cases hv6 : n.enableIPv6 = true
  · rw [if_pos hv6] at hrun
    cases hi4 : ifc.ipv4 with
    | none =>
      have hga : getIfaceAddr h n.bridgeIface = none := by
        simp [getIfaceAddr, hc, hi4]
      rw [hga] at hrun
      simp only [] at hrun
      obtain ⟨rfl, rfl⟩ : h' = h ∧ al' = al := by
        have e1 := congrArg (fun p => p.2.1) hrun
        have e2 := congrArg (fun p => p.2.2) hrun
        exact ⟨e1.symm, e2.symm⟩
      exact ⟨ifc, hc, hi4⟩
    | some a =>
      have hga : getIfaceAddr h n.bridgeIface = some (a, ifc.ipv6s) := by
        simp [getIfaceAddr, hc, hi4]
      rw [hga] at hrun
      simp only [] at hrun
      set h2 := if ifc.ipv6s.isEmpty then n.setupIPv6Bridge h else h with hh2
      have hc2 : ∃ ifc2, alookup h2.ifaces n.bridgeIface = some ifc2 ∧
          ifc2.ipv4 = some a := by
        rw [hh2]
        split
        · unfold Simplebridge.Network.setupIPv6Bridge
          rw [modifyIface_lookup]
          simp [hc, hi4]
        · exact ⟨ifc, hc, hi4⟩
      obtain ⟨ifc2, hc22, hi42⟩ := hc2
      have hga2 : getIfaceAddr h2 n.bridgeIface = some (a, ifc2.ipv6s) := by
        simp [getIfaceAddr, hc22, hi42]
      rw [hga2] at hrun
      simp only [] at hrun
      split at hrun
      · obtain ⟨ifc3, hc3, hi3⟩ : ∃ ifc3, alookup h'.ifaces n.bridgeIface = some ifc3 ∧
            ifc3.ipv4 = ifc2.ipv4 := by
          have := setupTail_ifaces_all n h2 al r h' al' hrun
          rw [this]
          exact ⟨ifc2, hc22, rfl⟩
        exact ⟨ifc3, hc3, by rw [hi3, hi42]⟩
      · obtain ⟨rfl, rfl⟩ : h' = h2 ∧ al' = al := by
          have e1 := congrArg (fun p => p.2.1) hrun
          have e2 := congrArg (fun p => p.2.2) hrun
          exact ⟨e1.symm, e2.symm⟩
        exact ⟨ifc2, hc22, hi42⟩
  · rw [if_neg hv6] at hrun
    have := setupTail_ifaces_all n h al r h' al' hrun
    rw [this]
    exact ⟨ifc, hc, rfl⟩

/-- C2 (confirmed). When the configured bridge interface already exists on
the host (the host reports an IPv4 address for it), Setup never mutates
that IPv4 address: whenever the live address differs from the configured
bridgeIPv4Addr, Setup fails with the bridge-config-mismatch error and
returns the host and the allocator exactly unchanged (no iptables change,
no allocator registration); and on every outcome the interface still
reports the same IPv4 address it had before the call. -/
theorem claim_C2_setup_validate :
    ∀ (n : Simplebridge.Network) (h : HostState) (ifc : Iface) (a : IPv4),
      alookup h.ifaces n.bridgeIface = some ifc →
      ifc.ipv4 = some a →
      ((a ≠ n.bridgeIPv4Addr →
         n.Setup h = (some ("Bridge ip (" ++ ipv4ToString a ++
           ") does not match existing bridge configuration " ++
           ipv4ToString n.bridgeIPv4Addr), h, n.ipAllocator)) ∧
       (∀ r h' al', n.Setup h = (r, h', al') →
         ∃ ifc', alookup h'.ifaces n.bridgeIface = some ifc' ∧
           ifc'.ipv4 = some a)) := by
  intro n h ifc a hc hi
  have hga : getIfaceAddr h n.bridgeIface = some (a, ifc.ipv6s) := by
    simp [getIfaceAddr, hc, hi]
  constructor
  · intro hne
    unfold Simplebridge.Network.Setup
    rw [hga]
    simp only []
    unfold Simplebridge.Network.setupValidate
    rw [hga]
    simp only []
    rw [if_pos hne]
  · intro r h' al' hrun
    unfold Simplebridge.Network.Setup at hrun
    rw [hga] at hrun
    simp only [] at hrun
    unfold Simplebridge.Network.setupValidate at hrun
    rw [hga] at hrun
    simp only [] at hrun
    split at hrun
    · obtain ⟨rfl, rfl⟩ : h' = h ∧ al' = n.ipAllocator := by
        have e1 := congrArg (fun p => p.2.1) hrun
        have e2 := congrArg (fun p => p.2.2) hrun
        exact ⟨e1.symm, e2.symm⟩
      exact ⟨ifc, hc, hi⟩
    · obtain ⟨ifc', hc', hi'⟩ := setupIPv6Check_ipv4 n h n.ipAllocator r h' al' ifc hrun hc
      exact ⟨ifc', hc', by rw [hi', hi]⟩

/-- The mismatch scenario of the C2 witness: the bridge exists out-of-band
with address 0.0.0.5 while the configuration declares 172.17.42.1. -/
def c2n : Simplebridge.Network :=
  { bridgeIface := "docker0"
    bridgeIPv4Addr := 2886806017
    bridgeIPv4Network := ⟨2886795264, 16⟩ }

/-- The host of the C2 witness. -/
def c2h : HostState := { ifaces := [("docker0", { ipv4 := some 5 })] }

/-- C2 witness: the mismatching Setup fails with the mismatch error and
leaves host and allocator untouched. -/
theorem claim_C2_setup_validate_witness :
    c2n.Setup c2h = (some ("Bridge ip (" ++ ipv4ToString 5 ++
      ") does not match existing bridge configuration " ++
      ipv4ToString c2n.bridgeIPv4Addr), c2h, c2n.ipAllocator) :=
  (claim_C2_setup_validate c2n c2h { ipv4 := some 5 } 5 rfl rfl).1 (by decide)

def Simplebridge.Network.natRule (n : Simplebridge.Network) : IptRule :=
  ⟨.nat, "POSTROUTING", n.natArgs⟩

def Simplebridge.Network.acceptRule (n : Simplebridge.Network) : IptRule :=
  ⟨.filter, "FORWARD", n.acceptArgs⟩

def Simplebridge.Network.dropRule (n : Simplebridge.Network) : IptRule :=
  ⟨.filter, "FORWARD", n.dropArgs⟩

def Simplebridge.Network.outgoingRule (n : Simplebridge.Network) : IptRule :=
  ⟨.filter, "FORWARD", n.outgoingArgs⟩

def Simplebridge.Network.existingRule (n : Simplebridge.Network) : IptRule :=
  ⟨.filter, "FORWARD", n.existingArgs⟩

theorem rules_distinct (n : Simplebridge.Network) :
    n.natRule ≠ n.acceptRule ∧ n.natRule ≠ n.dropRule ∧
    n.natRule ≠ n.outgoingRule ∧ n.natRule ≠ n.existingRule ∧
    n.acceptRule ≠ n.dropRule ∧ n.acceptRule ≠ n.outgoingRule ∧
    n.acceptRule ≠ n.existingRule ∧ n.dropRule ≠ n.outgoingRule ∧
    n.dropRule ≠ n.existingRule ∧ n.outgoingRule ≠ n.existingRule := by
  refine ⟨?_, ?_, ?_, ?_, ?_, ?_, ?_, ?_, ?_, ?_⟩ <;>
    simp [Simplebridge.Network.natRule, Simplebridge.Network.acceptRule,
      Simplebridge.Network.dropRule, Simplebridge.Network.outgoingRule,
      Simplebridge.Network.existingRule, Simplebridge.Network.natArgs,
      Simplebridge.Network.acceptArgs, Simplebridge.Network.dropArgs,
      Simplebridge.Network.outgoingArgs, Simplebridge.Network.existingArgs]

theorem iptExists_iff (h : HostState) (t : IptTable) (c : String)
    (args : List String) :
    iptExists h t c args = true ↔ (⟨t, c, args⟩ : IptRule) ∈ h.rules := by
  simp [iptExists]

theorem iptDelete_not_mem (h : HostState) (r : IptRule) (hr : r ∉ h.rules) :
    iptDelete h r = h := by
  unfold iptDelete
  rw [List.erase_of_not_mem hr]

theorem masqStep_insert (n : Simplebridge.Network) (h : HostState)
    (hm : n.enableIPMasq = true) (hnot : n.natRule ∉ h.rules) :
    (n.masqStep h).2 = iptInsert h n.natRule := by
  rw [masqStep_eq]
  have : iptExists h .nat "POSTROUTING" n.natArgs = false := by
    rw [← Bool.not_eq_true, iptExists_iff]
    exact hnot
  simp [hm, this, Simplebridge.Network.natRule]

theorem masqStep_present (n : Simplebridge.Network) (h : HostState)
    (hmem : n.natRule ∈ h.rules) :
    (n.masqStep h).2 = h := by
  rw [masqStep_eq]
  have : iptExists h .nat "POSTROUTING" n.natArgs = true := (iptExists_iff _ _ _ _).mpr hmem
  simp [this]

theorem masqStep_off (n : Simplebridge.Network) (h : HostState)
    (hm : n.enableIPMasq = false) :
    (n.masqStep h).2 = h := by
  rw [masqStep_eq]
  simp [hm]

theorem iccStep_true_insert (n : Simplebridge.Network) (h : HostState)
    (hi : n.enableICC = true) (hdrop : n.dropRule ∉ h.rules)
    (haccept : n.acceptRule ∉ h.rules) :
    (n.iccStep h).2 = iptInsert h n.acceptRule := by
  rw [iccStep_eq]
  rw [show (iptDelete h ⟨.filter, "FORWARD", n.dropArgs⟩) = h from
    iptDelete_not_mem h _ hdrop]
  have : iptExists h .filter "FORWARD" n.acceptArgs = false := by
    rw [← Bool.not_eq_true, iptExists_iff]
    exact haccept
  simp [hi, this, Simplebridge.Network.acceptRule]

theorem iccStep_true_present (n : Simplebridge.Network) (h : HostState)
    (hi : n.enableICC = true) (hdrop : n.dropRule ∉ h.rules)
    (haccept : n.acceptRule ∈ h.rules) :
    (n.iccStep h).2 = h := by
  rw [iccStep_eq]
  rw [show (iptDelete h ⟨.filter, "FORWARD", n.dropArgs⟩) = h from
    iptDelete_not_mem h _ hdrop]
  have : iptExists h .filter "FORWARD" n.acceptArgs = true :=
    (iptExists_iff _ _ _ _).mpr haccept
  simp [hi, this]

theorem iccStep_false_insert (n : Simplebridge.Network) (h : HostState)
    (hi : n.enableICC = false) (haccept : n.acceptRule ∉ h.rules)
    (hdrop : n.dropRule ∉ h.rules) :
    (n.iccStep h).2 = iptInsert h n.dropRule := by
  rw [iccStep_eq]
  rw [show (iptDelete h ⟨.filter, "FORWARD", n.acceptArgs⟩) = h from
    iptDelete_not_mem h _ haccept]
  have : iptExists h .filter "FORWARD" n.dropArgs = false := by
    rw [← Bool.not_eq_true, iptExists_iff]
    exact hdrop
  simp [hi, this, Simplebridge.Network.dropRule]

theorem iccStep_false_present (n : Simplebridge.Network) (h : HostState)
    (hi : n.enableICC = false) (haccept : n.acceptRule ∉ h.rules)
    (hdrop : n.dropRule ∈ h.rules) :
    (n.iccStep h).2 = h := by
  rw [iccStep_eq]
  rw [show (iptDelete h ⟨.filter, "FORWARD", n.acceptArgs⟩) = h from
    iptDelete_not_mem h _ haccept]
  have : iptExists h .filter "FORWARD" n.dropArgs = true :=
    (iptExists_iff _ _ _ _).mpr hdrop
  simp [hi, this]

theorem outgoingStep_insert (n : Simplebridge.Network) (h : HostState)
    (hnot : n.outgoingRule ∉ h.rules) :
    (n.outgoingStep h).2 = iptInsert h n.outgoingRule := by
  rw [outgoingStep_eq]
  have : iptExists h .filter "FORWARD" n.outgoingArgs = false := by
    rw [← Bool.not_eq_true, iptExists_iff]
    exact hnot
  simp [this, Simplebridge.Network.outgoingRule]

theorem outgoingStep_present (n : Simplebridge.Network) (h : HostState)
    (hmem : n.outgoingRule ∈ h.rules) :
    (n.outgoingStep h).2 = h := by
  rw [outgoingStep_eq]
  have : iptExists h .filter "FORWARD" n.outgoingArgs = true :=
    (iptExists_iff _ _ _ _).mpr hmem
  simp [this]

theorem existingStep_insert (n : Simplebridge.Network) (h : HostState)
    (hnot : n.existingRule ∉ h.rules) :
    (n.existingStep h).2 = iptInsert h n.existingRule := by
  rw [existingStep_eq]
  have : iptExists h .filter "FORWARD" n.existingArgs = false := by
    rw [← Bool.not_eq_true, iptExists_iff]
    exact hnot
  simp [this, Simplebridge.Network.existingRule]

theorem existingStep_present (n : Simplebridge.Network) (h : HostState)
    (hmem : n.existingRule ∈ h.rules) :
    (n.existingStep h).2 = h := by
  rw [existingStep_eq]
  have : iptExists h .filter "FORWARD" n.existingArgs = true :=
    (iptExists_iff _ _ _ _).mpr hmem
  simp [this]


theorem setupIPTables_clean_rules (n : Simplebridge.Network) (h : HostState)
    (h1 : n.natRule ∉ h.rules) (h2 : n.acceptRule ∉ h.rules)
    (h3 : n.dropRule ∉ h.rules) (h4 : n.outgoingRule ∉ h.rules)
    (h5 : n.existingRule ∉ h.rules) :
    ((n.setupIPTables h).2).rules =
      n.existingRule :: n.outgoingRule ::
        (if n.enableICC then n.acceptRule else n.dropRule) ::
        (if n.enableIPMasq then n.natRule :: h.rules else h.rules) := by
  obtain ⟨d1, d2, d3, d4, d5, d6, d7, d8, d9, d10⟩ := rules_distinct n
  rw [setupIPTables_run]
  try dsimp only
  by_cases hm : n.enableIPMasq = true <;> by_cases hi : n.enableICC = true
  · rw [masqStep_insert n h hm h1,
      iccStep_true_insert n _ hi (by simp [iptInsert, d2.symm, h3])
        (by simp [iptInsert, d1.symm, h2]),
      outgoingStep_insert n _ (by simp [iptInsert, d3.symm, d6.symm, h4]),
      existingStep_insert n _ (by simp [iptInsert, d4.symm, d7.symm, d10.symm, h5])]
    simp [iptInsert, hm, hi]
  · rw [masqStep_insert n h hm h1,
      iccStep_false_insert n _ (by simpa using hi) (by simp [iptInsert, d1.symm, h2])
        (by simp [iptInsert, d2.symm, h3]),
      outgoingStep_insert n _ (by simp [iptInsert, d3.symm, d8.symm, h4]),
      existingStep_insert n _ (by simp [iptInsert, d4.symm, d9.symm, d10.symm, h5])]
    simp [iptInsert, hm, hi]
  · rw [masqStep_off n h (by simpa using hm),
      iccStep_true_insert n _ hi h3 h2,
      outgoingStep_insert n _ (by simp [iptInsert, d6.symm, h4]),
      existingStep_insert n _ (by simp [iptInsert, d7.symm, d10.symm, h5])]
    simp [iptInsert, hm, hi]
  · rw [masqStep_off n h (by simpa using hm),
      iccStep_false_insert n _ (by simpa using hi) h2 h3,
      outgoingStep_insert n _ (by simp [iptInsert, d8.symm, h4]),
      existingStep_insert n _ (by simp [iptInsert, d9.symm, d10.symm, h5])]
    simp [iptInsert, hm, hi]

theorem setupIPTables_converged (n : Simplebridge.Network) (h : HostState)
    (hmasq : n.enableIPMasq = true → n.natRule ∈ h.rules)
    (hicc1 : n.enableICC = true → n.acceptRule ∈ h.rules ∧ n.dropRule ∉ h.rules)
    (hicc2 : n.enableICC = false → n.dropRule ∈ h.rules ∧ n.acceptRule ∉ h.rules)
    (hout : n.outgoingRule ∈ h.rules) (hex : n.existingRule ∈ h.rules) :
    n.setupIPTables h = (none, h) := by
  rw [setupIPTables_run]
  try dsimp only
  have hA : (n.masqStep h).2 = h := by
    by_cases hm : n.enableIPMasq = true
    · exact masqStep_present n h (hmasq hm)
    · exact masqStep_off n h (by simpa using hm)
  rw [hA]
  have hB : (n.iccStep h).2 = h := by
    by_cases hi : n.enableICC = true
    · exact iccStep_true_present n h hi (hicc1 hi).2 (hicc1 hi).1
    · exact iccStep_false_present n h (by simpa using hi)
        (hicc2 (by simpa using hi)).2 (hicc2 (by simpa using hi)).1
  rw [hB, outgoingStep_present n h hout, existingStep_present n h hex]

theorem getIfaceAddr_congr (h h' : HostState) (nm : String)
    (e : h'.ifaces = h.ifaces) : getIfaceAddr h' nm = getIfaceAddr h nm := by
  unfold getIfaceAddr
  rw [e]

theorem getIfaceAddr_inv (h : HostState) (nm : String) (a : IPv4) (v : List IPv6)
    (hga : getIfaceAddr h nm = some (a, v)) :
    ∃ ifc, alookup h.ifaces nm = some ifc ∧ ifc.ipv4 = some a ∧ ifc.ipv6s = v := by
  unfold getIfaceAddr at hga
  cases hc : alookup h.ifaces nm with
  | none => rw [hc] at hga; cases hga
  | some ifc =>
    rw [hc] at hga
    simp only [] at hga
    cases hi : ifc.ipv4 with
    | none => rw [hi] at hga; cases hga
    | some a' =>
      rw [hi] at hga
      simp only [Option.some.injEq, Prod.mk.injEq] at hga
      exact ⟨ifc, rfl, by rw [hi, hga.1], hga.2⟩

theorem setupIPv6Bridge_rules (n : Simplebridge.Network) (h : HostState) :
    (n.setupIPv6Bridge h).rules = h.rules := by
  unfold Simplebridge.Network.setupIPv6Bridge modifyIface
  split <;> rfl

theorem configureBridge_rules (n : Simplebridge.Network) (h : HostState) :
    (n.configureBridge h).rules = h.rules := by
  unfold Simplebridge.Network.configureBridge
  have hc : ∀ h' : HostState, (createBridgeIface h' n.bridgeIface).rules = h'.rules := by
    intro h'
    unfold createBridgeIface
    split <;> rfl
  have hm : ∀ (h' : HostState) (f : Iface → Iface),
      (modifyIface h' n.bridgeIface f).rules = h'.rules := by
    intro h' f
    unfold modifyIface
    split <;> rfl
  split <;> simp [hm, setupIPv6Bridge_rules, hc]

theorem setupIPv6Check_inv (n : Simplebridge.Network) (hS : HostState)
    (al : AllocState) (h1 : HostState) (al1 : AllocState) (v6s : List IPv6)
    (hga : getIfaceAddr hS n.bridgeIface = some (n.bridgeIPv4Addr, v6s))
    (hrun : n.setupIPv6Check hS al = (none, h1, al1)) :
    ∃ (hv : HostState) (v6s' : List IPv6),
      hv.rules = hS.rules ∧
      getIfaceAddr hv n.bridgeIface = some (n.bridgeIPv4Addr, v6s') ∧
      (n.enableIPv6 = true → n.bridgeIPv6Addr ∈ v6s') ∧
      h1.rules = (if n.enableIPTables then ((n.setupIPTables hv).2) else hv).rules ∧
      h1.ifaces = hv.ifaces := by
  unfold Simplebridge.Network.setupIPv6Check at hrun
  by_cases hv6 : n.enableIPv6 = true
  · rw [if_pos hv6, hga] at hrun
    simp only [] at hrun
    obtain ⟨ifc, hc, hi4, hi6⟩ := getIfaceAddr_inv hS n.bridgeIface _ _ hga
    by_cases hemp : v6s.isEmpty = true
    · rw [if_pos hemp] at hrun
      have hc2 : alookup (n.setupIPv6Bridge hS).ifaces n.bridgeIface =
          some { ifc with ipv6Enabled := true,
                          ipv6s := ifc.ipv6s ++ [n.bridgeIPv6Addr] } := by
        unfold Simplebridge.Network.setupIPv6Bridge
        rw [modifyIface_lookup]
        simp [hc]
      have hga2 : getIfaceAddr (n.setupIPv6Bridge hS) n.bridgeIface =
          some (n.bridgeIPv4Addr, ifc.ipv6s ++ [n.bridgeIPv6Addr]) := by
        simp [getIfaceAddr, hc2, hi4]
      rw [hga2] at hrun
      simp only [] at hrun
      split at hrun
      · obtain ⟨h2, al2, heq, hif, hrules⟩ := setupTail_run n (n.setupIPv6Bridge hS) al
        rw [heq] at hrun
        obtain ⟨rfl, rfl⟩ : h1 = h2 ∧ al1 = al2 := by
          have e1 := congrArg (fun p => p.2.1) hrun
          have e2 := congrArg (fun p => p.2.2) hrun
          exact ⟨e1.symm, e2.symm⟩
        refine ⟨n.setupIPv6Bridge hS, ifc.ipv6s ++ [n.bridgeIPv6Addr],
          setupIPv6Bridge_rules n hS, hga2, ?_, ?_, ?_⟩
        · intro _; simp
        · exact hrules
        · rw [hif, ipt_if_ifaces]
      · exact absurd (congrArg (fun p => p.1) hrun) (by simp)
    · rw [if_neg hemp] at hrun
      rw [hga] at hrun
      simp only [] at hrun
      split at hrun
      next hcont =>
        obtain ⟨h2, al2, heq, hif, hrules⟩ := setupTail_run n hS al
        rw [heq] at hrun
        obtain ⟨rfl, rfl⟩ : h1 = h2 ∧ al1 = al2 := by
          have e1 := congrArg (fun p => p.2.1) hrun
          have e2 := congrArg (fun p => p.2.2) hrun
          exact ⟨e1.symm, e2.symm⟩
        refine ⟨hS, v6s, rfl, hga, ?_, hrules, by rw [hif, ipt_if_ifaces]⟩
        intro _
        simpa using hcont
      next =>
        exact absurd (congrArg (fun p => p.1) hrun) (by simp)
  · rw [if_neg hv6] at hrun
    obtain ⟨h2, al2, heq, hif, hrules⟩ := setupTail_run n hS al
    rw [heq] at hrun
    obtain ⟨rfl, rfl⟩ : h1 = h2 ∧ al1 = al2 := by
      have e1 := congrArg (fun p => p.2.1) hrun
      have e2 := congrArg (fun p => p.2.2) hrun
      exact ⟨e1.symm, e2.symm⟩
    exact ⟨hS, v6s, rfl, hga, fun hcon => absurd hcon (by simp [hv6]),
      hrules, by rw [hif, ipt_if_ifaces]⟩

theorem setupValidate_inv (n : Simplebridge.Network) (hS : HostState)
    (al : AllocState) (h1 : HostState) (al1 : AllocState)
    (hrun : n.setupValidate hS al = (none, h1, al1)) :
    ∃ (hv : HostState) (v6s' : List IPv6),
      hv.rules = hS.rules ∧
      getIfaceAddr hv n.bridgeIface = some (n.bridgeIPv4Addr, v6s') ∧
      (n.enableIPv6 = true → n.bridgeIPv6Addr ∈ v6s') ∧
      h1.rules = (if n.enableIPTables then ((n.setupIPTables hv).2) else hv).rules ∧
      h1.ifaces = hv.ifaces := by
  unfold Simplebridge.Network.setupValidate at hrun
  cases hga : getIfaceAddr hS n.bridgeIface with
  | none =>
    rw [hga] at hrun
    exact absurd (congrArg (fun p => p.1) hrun) (by simp)
  | some p =>
    obtain ⟨a, v6s⟩ := p
    rw [hga] at hrun
    simp only [] at hrun
    split at hrun
    · exact absurd (congrArg (fun p => p.1) hrun) (by simp)
    · next hne =>
      have ha : a = n.bridgeIPv4Addr := by
        by_contra hcon
        exact hne (by simpa using hcon)
      subst ha
      exact setupIPv6Check_inv n hS al h1 al1 v6s hga hrun

theorem setup_ok_inv (n : Simplebridge.Network) (h0 : HostState)
    (h1 : HostState) (al1 : AllocState)
    (hrun : n.Setup h0 = (none, h1, al1)) :
    ∃ (hv : HostState) (v6s' : List IPv6),
      hv.rules = h0.rules ∧
      getIfaceAddr hv n.bridgeIface = some (n.bridgeIPv4Addr, v6s') ∧
      (n.enableIPv6 = true → n.bridgeIPv6Addr ∈ v6s') ∧
      h1.rules = (if n.enableIPTables then ((n.setupIPTables hv).2) else hv).rules ∧
      h1.ifaces = hv.ifaces := by
  unfold Simplebridge.Network.Setup at hrun
  cases hga0 : getIfaceAddr h0 n.bridgeIface with
  | some p =>
    rw [hga0] at hrun
    exact setupValidate_inv n h0 n.ipAllocator h1 al1 hrun
  | none =>
    rw [hga0] at hrun
    simp only [] at hrun
    cases hgaC : getIfaceAddr (n.configureBridge h0) n.bridgeIface with
    | none =>
      rw [hgaC] at hrun
      exact absurd (congrArg (fun p => p.1) hrun) (by simp)
    | some q =>
      rw [hgaC] at hrun
      simp only [] at hrun
      set hR := match n.fixedIPv6Subnet with
        | some sub => { n.configureBridge h0 with
            routes := (ipnetToString sub, n.bridgeIface) :: (n.configureBridge h0).routes }
        | none => n.configureBridge h0 with hhR
      have hRrules : hR.rules = h0.rules := by
        rw [hhR]
        cases n.fixedIPv6Subnet <;> simp [configureBridge_rules]
      obtain ⟨hv, v6s', hr1, hr2, hr3, hr4, hr5⟩ :=
        setupValidate_inv n hR n.ipAllocator h1 al1 hrun
      exact ⟨hv, v6s', by rw [hr1, hRrules], hr2, hr3, hr4, hr5⟩

theorem setup_converged (n : Simplebridge.Network) (h1 : HostState)
    (v6s : List IPv6)
    (hga : getIfaceAddr h1 n.bridgeIface = some (n.bridgeIPv4Addr, v6s))
    (hmem6 : n.enableIPv6 = true → n.bridgeIPv6Addr ∈ v6s)
    (hconv : n.enableIPTables = true → n.setupIPTables h1 = (none, h1)) :
    ∃ h2 al2, n.Setup h1 = (none, h2, al2) ∧ h2.rules = h1.rules := by
  obtain ⟨h2, al2, htail, hif, hrules⟩ := setupTail_run n h1 n.ipAllocator
  have hr2 : h2.rules = h1.rules := by
    rw [hrules]
    by_cases hipt : n.enableIPTables = true
    · simp [hipt, hconv hipt]
    · simp [hipt]
  refine ⟨h2, al2, ?_, hr2⟩
  unfold Simplebridge.Network.Setup
  rw [hga]
  simp only []
  unfold Simplebridge.Network.setupValidate
  rw [hga]
  simp only []
  rw [if_neg (show ¬ (n.bridgeIPv4Addr ≠ n.bridgeIPv4Addr) by simp)]
  unfold Simplebridge.Network.setupIPv6Check
  by_cases hv6 : n.enableIPv6 = true
  · rw [if_pos hv6, hga]
    simp only []
    have hmem := hmem6 hv6
    have hemp : v6s.isEmpty = false := by
      cases v6s
      · cases hmem
      · rfl
    rw [hemp]
    simp only [Bool.false_eq_true, if_false]
    rw [hga]
    simp only []
    rw [if_pos (by simpa using hmem)]
    exact htail
  · rw [if_neg hv6]
    exact htail

theorem mem_of_count_one {α : Type} [DecidableEq α] (l : List α) (a : α)
    (h : l.count a = 1) : a ∈ l := by
  rw [← List.count_pos_iff]
  omega

/-- C4 (amended). Starting from a host whose rule list contains none of the
four rule groups, a successful Setup leaves exactly one rule per enabled
group (the masquerade rule exactly when masquerading is on, exactly one of
the accept or drop inter-container rules matching the flag, and the
outgoing and established rules, all only when iptables integration is on;
no rules otherwise), and a second Setup with the identical configuration
(carrying the allocator state forward) succeeds and leaves the rule list
exactly unchanged, because every group checks existence before inserting. -/
theorem claim_C4_amended :
    ∀ (n : Simplebridge.Network) (h0 h1 : HostState) (al1 : AllocState),
      h0.rules.count n.natRule = 0 →
      h0.rules.count n.acceptRule = 0 →
      h0.rules.count n.dropRule = 0 →
      h0.rules.count n.outgoingRule = 0 →
      h0.rules.count n.existingRule = 0 →
      n.Setup h0 = (none, h1, al1) →
      ∃ (h2 : HostState) (al2 : AllocState),
        Simplebridge.Network.Setup { n with ipAllocator := al1 } h1 = (none, h2, al2) ∧
        h2.rules = h1.rules ∧
        (n.enableIPTables = true →
          h1.rules.count n.natRule = (if n.enableIPMasq then 1 else 0) ∧
          h1.rules.count n.acceptRule = (if n.enableICC then 1 else 0) ∧
          h1.rules.count n.dropRule = (if n.enableICC then 0 else 1) ∧
          h1.rules.count n.outgoingRule = 1 ∧
          h1.rules.count n.existingRule = 1) ∧
        (n.enableIPTables = false → h1.rules = h0.rules) := by
  intro n h0 h1 al1 c1 c2 c3 c4 c5 hrun
  have m1 : n.natRule ∉ h0.rules := List.count_eq_zero.mp c1
  have m2 : n.acceptRule ∉ h0.rules := List.count_eq_zero.mp c2
  have m3 : n.dropRule ∉ h0.rules := List.count_eq_zero.mp c3
  have m4 : n.outgoingRule ∉ h0.rules := List.count_eq_zero.mp c4
  have m5 : n.existingRule ∉ h0.rules := List.count_eq_zero.mp c5
  obtain ⟨hv, v6s, hvr, hga, hmem6, h1r, h1if⟩ := setup_ok_inv n h0 h1 al1 hrun
  have mv1 : n.natRule ∉ hv.rules := by rw [hvr]; exact m1
  have mv2 : n.acceptRule ∉ hv.rules := by rw [hvr]; exact m2
  have mv3 : n.dropRule ∉ hv.rules := by rw [hvr]; exact m3
  have mv4 : n.outgoingRule ∉ hv.rules := by rw [hvr]; exact m4
  have mv5 : n.existingRule ∉ hv.rules := by rw [hvr]; exact m5
  obtain ⟨d1, d2, d3, d4, d5, d6, d7, d8, d9, d10⟩ := rules_distinct n
  have hshape : n.enableIPTables = true →
      h1.rules = n.existingRule :: n.outgoingRule ::
        (if n.enableICC then n.acceptRule else n.dropRule) ::
        (if n.enableIPMasq then n.natRule :: hv.rules else hv.rules) := by
    intro hipt
    rw [h1r, if_pos hipt, setupIPTables_clean_rules n hv mv1 mv2 mv3 mv4 mv5]
  have hcounts : n.enableIPTables = true →
      h1.rules.count n.natRule = (if n.enableIPMasq then 1 else 0) ∧
      h1.rules.count n.acceptRule = (if n.enableICC then 1 else 0) ∧
      h1.rules.count n.dropRule = (if n.enableICC then 0 else 1) ∧
      h1.rules.count n.outgoingRule = 1 ∧
      h1.rules.count n.existingRule = 1 := by
    intro hipt
    rw [hshape hipt]
    have cv1 : hv.rules.count n.natRule = 0 := by rw [hvr]; exact c1
    have cv2 : hv.rules.count n.acceptRule = 0 := by rw [hvr]; exact c2
    have cv3 : hv.rules.count n.dropRule = 0 := by rw [hvr]; exact c3
    have cv4 : hv.rules.count n.outgoingRule = 0 := by rw [hvr]; exact c4
    have cv5 : hv.rules.count n.existingRule = 0 := by rw [hvr]; exact c5
    by_cases hm : n.enableIPMasq = true <;> by_cases hi : n.enableICC = true <;>
      simp [hm, hi, List.count_cons, cv1, cv2, cv3, cv4, cv5,
        d1, d2, d3, d4, d5, d6, d7, d8, d9, d10,
        d1.symm, d2.symm, d3.symm, d4.symm, d5.symm, d6.symm, d7.symm,
        d8.symm, d9.symm, d10.symm]
  have hrules0 : n.enableIPTables = false → h1.rules = h0.rules := by
    intro hipt
    rw [h1r]
    simp [hipt, hvr]
  have hga1 : getIfaceAddr h1 n.bridgeIface = some (n.bridgeIPv4Addr, v6s) := by
    rw [getIfaceAddr_congr hv h1 n.bridgeIface h1if]
    exact hga
  have hconv : n.enableIPTables = true →
      Simplebridge.Network.setupIPTables { n with ipAllocator := al1 } h1 =
        (none, h1) := by
    intro hipt
    obtain ⟨k1, k2, k3, k4, k5⟩ := hcounts hipt
    refine setupIPTables_converged _ h1 ?_ ?_ ?_ ?_ ?_
    · intro hmq
      have hmq' : n.enableIPMasq = true := hmq
      exact mem_of_count_one _ _
        (show List.count n.natRule h1.rules = 1 by rw [k1, if_pos hmq'])
    · intro hic
      have hic' : n.enableICC = true := hic
      exact ⟨mem_of_count_one _ _
          (show List.count n.acceptRule h1.rules = 1 by rw [k2, if_pos hic']),
        List.count_eq_zero.mp
          (show List.count n.dropRule h1.rules = 0 by rw [k3, if_pos hic'])⟩
    · intro hic
      have hic' : n.enableICC = false := hic
      exact ⟨mem_of_count_one _ _
          (show List.count n.dropRule h1.rules = 1 by
            rw [k3, if_neg (by simp [hic'])]),
        List.count_eq_zero.mp
          (show List.count n.acceptRule h1.rules = 0 by
            rw [k2, if_neg (by simp [hic'])])⟩
    · exact mem_of_count_one h1.rules n.outgoingRule k4
    · exact mem_of_count_one h1.rules n.existingRule k5
  obtain ⟨h2, al2, hsetup2, hr2⟩ := setup_converged { n with ipAllocator := al1 }
    h1 v6s hga1 hmem6 hconv
  exact ⟨h2, al2, hsetup2, hr2, hcounts, hrules0⟩

/-- The C4 network: iptables integration, masquerade and inter-container
communication all enabled. -/
def c4n : Simplebridge.Network :=
  { bridgeIface := "docker0"
    bridgeIPv4Addr := 2886806017
    bridgeIPv4Network := ⟨2886795264, 16⟩
    enableIPTables := true
    enableIPMasq := true
    enableICC := true }

/-- A host that already carries the masquerade rule twice, with the bridge
interface present at the configured address. -/
def c4hDup : HostState :=
  { ifaces := [("docker0", { ipv4 := some 2886806017 })]
    rules := [c4n.natRule, c4n.natRule] }

/-- A clean host for the C4 witness: the bridge exists at the configured
address and no group rule is installed. -/
def c4h0 : HostState := { ifaces := [("docker0", { ipv4 := some 2886806017 })] }

/-- The host after the first Setup of the witness run. -/
def c4h1 : HostState := (c4n.Setup c4h0).2.1

/-- The allocator after the first Setup of the witness run. -/
def c4al1 : AllocState := (c4n.Setup c4h0).2.2

/-- C4 counterexample. The claim quantifies only over a start state in
which the first Setup succeeded: on a host already carrying the masquerade
rule twice, both Setup calls succeed (the existence check sees the rule and
inserts nothing), yet the masquerade group ends with two rules, not exactly
one. -/
theorem claim_C4_counterexample :
    (c4n.Setup c4hDup).1 = none ∧
    (Simplebridge.Network.Setup { c4n with ipAllocator := (c4n.Setup c4hDup).2.2 }
      (c4n.Setup c4hDup).2.1).1 = none ∧
    ((Simplebridge.Network.Setup { c4n with ipAllocator := (c4n.Setup c4hDup).2.2 }
      (c4n.Setup c4hDup).2.1).2.1.rules.count c4n.natRule) = 2 := by
  refine ⟨rfl, rfl, by decide⟩

/-- C4 witness: the amended claim at the concrete clean host: the second
Setup succeeds and changes nothing, and each enabled group holds exactly
one rule. -/
theorem claim_C4_amended_witness :
    ∃ (h2 : HostState) (al2 : AllocState),
      Simplebridge.Network.Setup { c4n with ipAllocator := c4al1 } c4h1 =
        (none, h2, al2) ∧
      h2.rules = c4h1.rules ∧
      (c4n.enableIPTables = true →
        c4h1.rules.count c4n.natRule = (if c4n.enableIPMasq then 1 else 0) ∧
        c4h1.rules.count c4n.acceptRule = (if c4n.enableICC then 1 else 0) ∧
        c4h1.rules.count c4n.dropRule = (if c4n.enableICC then 0 else 1) ∧
        c4h1.rules.count c4n.outgoingRule = 1 ∧
        c4h1.rules.count c4n.existingRule = 1) ∧
      (c4n.enableIPTables = false → c4h1.rules = c4h0.rules) :=
  claim_C4_amended c4n c4h0 c4h1 c4al1 (by decide) (by decide) (by decide)
    (by decide) (by decide) rfl
